import Mathlib

/-! Uniform-grid spatial index (`src/core/wasm/spatial_grid.cpp`).

A shallow embedding of the C++ class `SpatialGrid` and a verification of the
properties its specification states.

Modelling conventions.

* `int` is `Int` with exact arithmetic (the properties are stated for runs
  without overflow); C++ `/` on `int` truncates toward zero and is `Int.tdiv`.
* `std::unordered_map<K, V>` is `Finmap`: a finite map with extensional
  equality, `lookup` for `find`, `insert` for assignment through `operator[]`,
  `erase` for `erase`, `keys.card` for `size()`.
* `std::unordered_set<int>` is `Finset Int`. A query returns the contents of
  an unordered set in unspecified order, so its result is a `Finset Int`.
* `std::size_t` is `Nat`; `double` (only the average of the statistics cache)
  is `ℚ`.
* The two `thread_local` scratch buffers are cleared by every query before it
  writes to them and are returned by value, so they are local values of the
  query functions and not part of the state.
* A `const` member that writes the `mutable` statistics cache returns the new
  state next to its result.
-/

namespace SpatialGrid

/-- Precision modes of `getObjectsInRadius`. -/
inductive RadiusPrecision where
  | PRECISION_SQUARE
  | PRECISION_CENTER
  | PRECISION_BOUNDS
  deriving DecidableEq, Repr

/-- Integer cell coordinate. -/
structure CellCoord where
  x : Int
  y : Int
  deriving DecidableEq, Repr

/-- Rectangle on file for an object. -/
structure ObjectInfo where
  x : Int
  y : Int
  width : Int
  height : Int
  deriving DecidableEq, Repr

/-- Derived statistics over the grid. -/
structure CachedStats where
  avgObjectsPerCell : ℚ
  totalObjectReferences : Nat
  maxObjectsPerCell : Nat
  dirty : Bool
  deriving DecidableEq

/-- Value of `CachedStats()`: the default member initialisers of the struct. -/
def CachedStats.init : CachedStats :=
  ⟨5, 0, 0, true⟩

/-- Type of the member `grid`. -/
abbrev Grid := Finmap (fun _ : CellCoord => Finset Int)

/-- Type of the member `objectData`. -/
abbrev ObjectTable := Finmap (fun _ : Int => ObjectInfo)

end SpatialGrid

/-- State of one `SpatialGrid` instance. -/
structure SpatialGrid where
  cellSize : Int
  grid : SpatialGrid.Grid
  objectData : SpatialGrid.ObjectTable
  cachedStats : SpatialGrid.CachedStats
  deriving DecidableEq

namespace SpatialGrid

/-- Constructor `SpatialGrid(int cell_size)`; the `reserve` calls do not change
the contents of the containers. -/
def new (cell_size : Int) : SpatialGrid :=
  ⟨cell_size, ∅, ∅, CachedStats.init⟩

/-- Source lines 73-75: `(a >= 0) ? (a / b) : ((a - b + 1) / b)`. -/
def floorDiv (a b : Int) : Int :=
  if a ≥ 0 then a.tdiv b else (a - b + 1).tdiv b

/-- Source lines 77-79. -/
def getCellCoord (s : SpatialGrid) (x y : Int) : CellCoord :=
  ⟨floorDiv x s.cellSize, floorDiv y s.cellSize⟩

/-- Values taken by the loop variable of `for (int c = lo; c <= hi; c++)`, in
order. -/
def loopRange (lo hi : Int) : List Int :=
  (List.range (hi - lo + 1).toNat).map (fun (i : Nat) => lo + (i : Int))

/-- Cells visited by the nested loops `cellX = startX..endX`,
`cellY = startY..endY`, in visiting order. -/
def cellLoop (startX startY endX endY : Int) : List CellCoord :=
  (loopRange startX endX).flatMap
    (fun cellX => (loopRange startY endY).map (fun cellY => CellCoord.mk cellX cellY))

/-- Id set of a cell, empty when the cell has no entry. -/
def idsAt (g : Grid) (c : CellCoord) : Finset Int :=
  (g.lookup c).getD ∅

/-- Source line 118: `grid[{cellX, cellY}].insert(id)`; `operator[]` creates an
empty set when the cell has no entry. -/
def insertId (id : Int) (g : Grid) (c : CellCoord) : Grid :=
  g.insert c (insert id (idsAt g c))

/-- Source lines 133-140: erase `id` from the cell when the cell has an entry
and drop the entry when its set became empty. -/
def eraseId (id : Int) (g : Grid) (c : CellCoord) : Grid :=
  match g.lookup c with
  | none => g
  | some ids =>
    if ids.erase id = ∅ then g.erase c else g.insert c (ids.erase id)

/-- Source lines 81-97. -/
def updateCachedStats (s : SpatialGrid) : SpatialGrid :=
  if s.cachedStats.dirty = false then s
  else
    let total : Nat := s.grid.keys.sum (fun c => (idsAt s.grid c).card)
    let maxPer : Nat := s.grid.keys.sup (fun c => (idsAt s.grid c).card)
    let avg : ℚ := if s.grid.keys = ∅ then 5 else (total : ℚ) / (s.grid.keys.card : ℚ)
    { s with cachedStats := ⟨avg, total, maxPer, false⟩ }

/-- Source lines 99-108. The cell count is an `int` product converted to
`size_t` (32 bits on the wasm32 target); the estimate only sizes a buffer. -/
def estimateCapacity (s : SpatialGrid) (startX startY endX endY : Int) :
    Nat × SpatialGrid :=
  let s1 := if s.cachedStats.dirty then updateCachedStats s else s
  let cellCount : Nat := (((endX - startX + 1) * (endY - startY + 1)) % 4294967296).toNat
  let estimate : Nat := ⌊(cellCount : ℚ) * s1.cachedStats.avgObjectsPerCell * (3 / 2)⌋₊
  (max estimate 32, s1)

/-- Source lines 110-123. -/
def addToCells (s : SpatialGrid) (id x y width height : Int) : SpatialGrid :=
  let startX := floorDiv x s.cellSize
  let startY := floorDiv y s.cellSize
  let endX := floorDiv (x + width - 1) s.cellSize
  let endY := floorDiv (y + height - 1) s.cellSize
  { s with
    grid := (cellLoop startX startY endX endY).foldl (insertId id) s.grid
    cachedStats := { s.cachedStats with dirty := true } }

/-- Source lines 125-145. -/
def removeFromCells (s : SpatialGrid) (id x y width height : Int) : SpatialGrid :=
  let startX := floorDiv x s.cellSize
  let startY := floorDiv y s.cellSize
  let endX := floorDiv (x + width - 1) s.cellSize
  let endY := floorDiv (y + height - 1) s.cellSize
  { s with
    grid := (cellLoop startX startY endX endY).foldl (eraseId id) s.grid
    cachedStats := { s.cachedStats with dirty := true } }

/-- Source lines 147-155. -/
def rectangleIntersectsCircle (rx ry rw rh cx cy radius : Int) : Bool :=
  let closestX := max rx (min cx (rx + rw))
  let closestY := max ry (min cy (ry + rh))
  let dx := closestX - cx
  let dy := closestY - cy
  decide (dx * dx + dy * dy ≤ radius * radius)

/-- Source lines 165-168. -/
def addObject (s : SpatialGrid) (id x y width height : Int) : SpatialGrid :=
  addToCells { s with objectData := s.objectData.insert id ⟨x, y, width, height⟩ }
    id x y width height

/-- Source lines 170-177. -/
def removeObject (s : SpatialGrid) (id : Int) : SpatialGrid :=
  match s.objectData.lookup id with
  | none => s
  | some info =>
    let s1 := removeFromCells s id info.x info.y info.width info.height
    { s1 with objectData := s1.objectData.erase id }

/-- Source lines 179-213. -/
def updateObject (s : SpatialGrid) (id x y width height : Int) : SpatialGrid :=
  match s.objectData.lookup id with
  | none => addObject s id x y width height
  | some info =>
    if info.x = x ∧ info.y = y ∧ info.width = width ∧ info.height = height then s
    else
      let oldStartX := floorDiv info.x s.cellSize
      let oldStartY := floorDiv info.y s.cellSize
      let oldEndX := floorDiv (info.x + info.width - 1) s.cellSize
      let oldEndY := floorDiv (info.y + info.height - 1) s.cellSize
      let newStartX := floorDiv x s.cellSize
      let newStartY := floorDiv y s.cellSize
      let newEndX := floorDiv (x + width - 1) s.cellSize
      let newEndY := floorDiv (y + height - 1) s.cellSize
      let s1 :=
        if oldStartX ≠ newStartX ∨ oldStartY ≠ newStartY ∨
            oldEndX ≠ newEndX ∨ oldEndY ≠ newEndY then
          addToCells (removeFromCells s id info.x info.y info.width info.height)
            id x y width height
        else s
      { s1 with objectData := s1.objectData.insert id ⟨x, y, width, height⟩ }

/-- Source lines 215-226. -/
def getObjectsAt (s : SpatialGrid) (x y : Int) : Finset Int :=
  let coord := getCellCoord s x y
  match s.grid.lookup coord with
  | some ids => ids
  | none => ∅

/-- Source lines 228-254: the result and the state left behind (the capacity
estimate refreshes the statistics cache). -/
def getObjectsInRect (s : SpatialGrid) (x y width height : Int) :
    Finset Int × SpatialGrid :=
  let startX := floorDiv x s.cellSize
  let startY := floorDiv y s.cellSize
  let endX := floorDiv (x + width - 1) s.cellSize
  let endY := floorDiv (y + height - 1) s.cellSize
  let est := estimateCapacity s startX startY endX endY
  let unique : Finset Int :=
    (cellLoop startX startY endX endY).foldl
      (fun acc c =>
        match s.grid.lookup c with
        | some ids => acc ∪ ids
        | none => acc)
      ∅
  (unique, est.2)

/-- Source lines 289-294: the test of the `PRECISION_CENTER` branch on one
object; C++ `/ 2` truncates toward zero. -/
def centerInCircle (o : ObjectInfo) (centerX centerY radius : Int) : Bool :=
  let radiusSq := radius * radius
  let objCenterX := o.x + o.width.tdiv 2
  let objCenterY := o.y + o.height.tdiv 2
  let dx := objCenterX - centerX
  let dy := objCenterY - centerY
  decide (dx * dx + dy * dy ≤ radiusSq)

/-- Ids of one cell's set that a refining branch inserts: those with an Object
Table entry that passes `test` (source lines 286-298 and 308-318). -/
def refineCell (s : SpatialGrid) (test : ObjectInfo → Bool) (ids : Finset Int) :
    Finset Int :=
  ids.filter (fun id =>
    (match s.objectData.lookup id with
      | some o => test o
      | none => false) = true)

/-- Source lines 256-328: the result and the state left behind. -/
def getObjectsInRadius (s : SpatialGrid) (centerX centerY radius : Int)
    (precision : RadiusPrecision) : Finset Int × SpatialGrid :=
  let startX := floorDiv (centerX - radius) s.cellSize
  let startY := floorDiv (centerY - radius) s.cellSize
  let endX := floorDiv (centerX + radius) s.cellSize
  let endY := floorDiv (centerY + radius) s.cellSize
  let est := estimateCapacity s startX startY endX endY
  let cells := cellLoop startX startY endX endY
  let unique : Finset Int :=
    match precision with
    | .PRECISION_SQUARE =>
      cells.foldl
        (fun acc c =>
          match s.grid.lookup c with
          | some ids => acc ∪ ids
          | none => acc)
        ∅
    | .PRECISION_CENTER =>
      cells.foldl
        (fun acc c =>
          match s.grid.lookup c with
          | some ids =>
            acc ∪ refineCell s (fun o => centerInCircle o centerX centerY radius) ids
          | none => acc)
        ∅
    | .PRECISION_BOUNDS =>
      cells.foldl
        (fun acc c =>
          match s.grid.lookup c with
          | some ids =>
            acc ∪ refineCell s
              (fun o => rectangleIntersectsCircle o.x o.y o.width o.height
                centerX centerY radius) ids
          | none => acc)
        ∅
  (unique, est.2)

/-- Source lines 330-349; `none` in the arrays cannot occur once the lengths
agree, and `reserve` does not change the grid. -/
def updateObjectsBatch (s : SpatialGrid) (ids xs ys widths heights : List Int) :
    Int × SpatialGrid :=
  let size := ids.length
  if xs.length ≠ size ∨ ys.length ≠ size ∨ widths.length ≠ size ∨ heights.length ≠ size then
    (-1, s)
  else
    (0, (List.range size).foldl
      (fun st i =>
        updateObject st (ids.getD i 0) (xs.getD i 0) (ys.getD i 0)
          (widths.getD i 0) (heights.getD i 0))
      s)

/-- Source lines 351-357. -/
def clear (s : SpatialGrid) : SpatialGrid :=
  { s with grid := ∅, objectData := ∅, cachedStats := CachedStats.init }

/-- Source lines 359-361. -/
def getCellCount (s : SpatialGrid) : Nat :=
  s.grid.keys.card

/-- Source lines 363-365. -/
def getObjectCount (s : SpatialGrid) : Nat :=
  s.objectData.keys.card

/-- Source lines 387-392. -/
def getMaxObjectsPerCell (s : SpatialGrid) : Nat × SpatialGrid :=
  let s1 := if s.cachedStats.dirty then updateCachedStats s else s
  (s1.cachedStats.maxObjectsPerCell, s1)

/-- Source lines 394-399. -/
def getAverageObjectsPerCell (s : SpatialGrid) : ℚ × SpatialGrid :=
  let s1 := if s.cachedStats.dirty then updateCachedStats s else s
  (s1.cachedStats.avgObjectsPerCell, s1)

/-! ## Runs of mutating operations -/

/-- One call of a mutating entry point. -/
inductive Op where
  | add (id x y width height : Int)
  | remove (id : Int)
  | update (id x y width height : Int)
  | batch (ids xs ys widths heights : List Int)
  | clear
  deriving DecidableEq, Repr

/-- State after one call. -/
def step (s : SpatialGrid) : Op → SpatialGrid
  | .add id x y w h => addObject s id x y w h
  | .remove id => removeObject s id
  | .update id x y w h => updateObject s id x y w h
  | .batch ids xs ys ws hs => (updateObjectsBatch s ids xs ys ws hs).2
  | .clear => clear s

/-- State after a sequence of calls, first call first. -/
def run (s : SpatialGrid) (ops : List Op) : SpatialGrid :=
  ops.foldl step s

/-- Every `addObject` of the run is called with an id that has no Object Table
entry at the time of the call. -/
def addsFresh (s : SpatialGrid) : List Op → Bool
  | [] => true
  | op :: ops =>
    (match op with
      | .add id _ _ _ _ => decide (s.objectData.lookup id = none)
      | _ => true) && addsFresh (step s op) ops

/-! ## Runs of mutating operations and queries -/

/-- One call of a public entry point that can write to the instance: a mutating
operation, or a query (the range queries and the two statistics getters
refresh the statistics cache; `getObjectsAt` writes nothing). -/
inductive Call where
  | mutate (op : Op)
  | objectsAt (x y : Int)
  | objectsInRect (x y width height : Int)
  | objectsInRadius (centerX centerY radius : Int) (precision : RadiusPrecision)
  | maxObjectsPerCell
  | averageObjectsPerCell
  deriving DecidableEq, Repr

/-- State after one call, its return value dropped. -/
def stepCall (s : SpatialGrid) : Call → SpatialGrid
  | .mutate op => step s op
  | .objectsAt _ _ => s
  | .objectsInRect x y w h => (getObjectsInRect s x y w h).2
  | .objectsInRadius cx cy r p => (getObjectsInRadius s cx cy r p).2
  | .maxObjectsPerCell => (getMaxObjectsPerCell s).2
  | .averageObjectsPerCell => (getAverageObjectsPerCell s).2

/-- State after a sequence of calls, first call first. -/
def runCalls (s : SpatialGrid) (calls : List Call) : SpatialGrid :=
  calls.foldl stepCall s

/-! ## Specification predicates -/

/-- Cell `c` lies in the covered-cell range of the rectangle `(x, y, w, h)`
for cell size `b`: `[floorDiv x .. floorDiv (x+w-1)] x [floorDiv y .. floorDiv (y+h-1)]`. -/
def inCoveredRange (b : Int) (x y w h : Int) (c : CellCoord) : Prop :=
  floorDiv x b ≤ c.x ∧ c.x ≤ floorDiv (x + w - 1) b ∧
    floorDiv y b ≤ c.y ∧ c.y ≤ floorDiv (y + h - 1) b

instance (b x y w h : Int) (c : CellCoord) : Decidable (inCoveredRange b x y w h c) := by
  unfold inCoveredRange; infer_instance

/-- Cells visited by `getObjectsInRadius`: the covered range of the bounding
square `[cx - r, cx + r] x [cy - r, cy + r]`. -/
def inRadiusRange (b cx cy r : Int) (c : CellCoord) : Prop :=
  floorDiv (cx - r) b ≤ c.x ∧ c.x ≤ floorDiv (cx + r) b ∧
    floorDiv (cy - r) b ≤ c.y ∧ c.y ≤ floorDiv (cy + r) b

/-- Membership invariant: an id is in a cell's set exactly when the id has an
Object Table entry whose covered-cell range contains the cell. -/
def Membership (s : SpatialGrid) : Prop :=
  ∀ (id : Int) (c : CellCoord),
    id ∈ idsAt s.grid c ↔
      ∃ o : ObjectInfo, s.objectData.lookup id = some o ∧
        inCoveredRange s.cellSize o.x o.y o.width o.height c

/-- No-empty-cells invariant: no cell entry maps to the empty set. -/
def NoEmptyCells (s : SpatialGrid) : Prop :=
  ∀ c : CellCoord, s.grid.lookup c ≠ some ∅

/-- Sum of the id-set sizes over all cells of the grid. -/
def totalReferences (g : Grid) : Nat :=
  g.keys.sum (fun c => (idsAt g c).card)

/-- Largest id-set size over all cells of the grid, 0 for the empty grid. -/
def maxReferences (g : Grid) : Nat :=
  g.keys.sup (fun c => (idsAt g c).card)

/-- Average id-set size over the cells of the grid, 5 for the empty grid. -/
def averageReferences (g : Grid) : ℚ :=
  if g.keys = ∅ then 5 else (totalReferences g : ℚ) / (g.keys.card : ℚ)

/-- The statistics cache is not stale: when the dirty flag is false the cached
values are the ones recomputed from the current grid. -/
def StatsFresh (s : SpatialGrid) : Prop :=
  s.cachedStats.dirty = false →
    s.cachedStats.totalObjectReferences = totalReferences s.grid ∧
      s.cachedStats.maxObjectsPerCell = maxReferences s.grid ∧
      s.cachedStats.avgObjectsPerCell = averageReferences s.grid

end SpatialGrid

namespace SpatialGrid

/-! ## Cell addressing -/

theorem floorDiv_eq_ediv (a b : Int) (hb : 0 < b) : floorDiv a b = a / b := by
  unfold floorDiv
  split_ifs with h
  · exact Int.tdiv_eq_ediv h (le_of_lt hb)
  · have hneg : a - b + 1 = -(b - 1 - a) := by ring
    have hnn : 0 ≤ b - 1 - a := by omega
    rw [hneg, Int.neg_tdiv, Int.tdiv_eq_ediv hnn (le_of_lt hb)]
    have h1 : (b - 1 - a) / b * b ≤ b - 1 - a := Int.ediv_mul_le _ (ne_of_gt hb)
    have h2 : b - 1 - a < ((b - 1 - a) / b + 1) * b := Int.lt_ediv_add_one_mul_self _ hb
    have h3 : a / b * b ≤ a := Int.ediv_mul_le _ (ne_of_gt hb)
    have h4 : a < (a / b + 1) * b := Int.lt_ediv_add_one_mul_self _ hb
    have key : ∀ q : Int, q * b ≤ a → a < (q + 1) * b → q = a / b := by
      intro q hq1 hq2
      apply le_antisymm
      · exact (Int.le_ediv_iff_mul_le hb).2 hq1
      · have : a / b < q + 1 := (Int.ediv_lt_iff_lt_mul hb).2 hq2
        omega
    apply key
    · nlinarith
    · nlinarith

theorem floorDiv_mono (b : Int) (hb : 0 < b) {a a' : Int} (h : a ≤ a') :
    floorDiv a b ≤ floorDiv a' b := by
  rw [floorDiv_eq_ediv a b hb, floorDiv_eq_ediv a' b hb]
  exact Int.ediv_le_ediv hb h

theorem mem_loopRange (lo hi i : Int) : i ∈ loopRange lo hi ↔ lo ≤ i ∧ i ≤ hi := by
  unfold loopRange
  simp only [List.mem_map, List.mem_range]
  constructor
  · rintro ⟨n, hn, rfl⟩
    omega
  · rintro ⟨h1, h2⟩
    exact ⟨(i - lo).toNat, by omega, by omega⟩

theorem mem_cellLoop (startX startY endX endY : Int) (c : CellCoord) :
    c ∈ cellLoop startX startY endX endY ↔
      startX ≤ c.x ∧ c.x ≤ endX ∧ startY ≤ c.y ∧ c.y ≤ endY := by
  unfold cellLoop
  simp only [List.mem_flatMap, List.mem_map, mem_loopRange]
  constructor
  · rintro ⟨cx, ⟨h1, h2⟩, cy, ⟨h3, h4⟩, rfl⟩
    exact ⟨h1, h2, h3, h4⟩
  · rintro ⟨h1, h2, h3, h4⟩
    exact ⟨c.x, ⟨h1, h2⟩, c.y, ⟨h3, h4⟩, rfl⟩

/-! ## The two grid primitives, cell by cell -/

theorem lookup_insertId (id : Int) (g : Grid) (c d : CellCoord) :
    (insertId id g c).lookup d =
      if d = c then some (insert id (idsAt g d)) else g.lookup d := by
  unfold insertId
  split_ifs with h
  · subst h
    exact Finmap.lookup_insert g
  · exact Finmap.lookup_insert_of_ne g h

theorem lookup_eraseId (id : Int) (g : Grid) (c d : CellCoord) :
    (eraseId id g c).lookup d =
      if d = c then
        (match g.lookup d with
          | none => none
          | some ids => if ids.erase id = ∅ then none else some (ids.erase id))
      else g.lookup d := by
  unfold eraseId
  split_ifs with h
  · subst h
    cases hl : g.lookup d with
    | none => simp [hl]
    | some ids =>
      simp only
      split_ifs with he
      · exact Finmap.lookup_erase d g
      · exact Finmap.lookup_insert g
  · cases hl : g.lookup c with
    | none => simp
    | some ids =>
      simp only
      split_ifs with he
      · exact Finmap.lookup_erase_ne h
      · exact Finmap.lookup_insert_of_ne g h

theorem lookup_foldl_insertId (id : Int) (l : List CellCoord) (g : Grid) (d : CellCoord) :
    (l.foldl (insertId id) g).lookup d =
      if d ∈ l then some (insert id (idsAt g d)) else g.lookup d := by
  induction l generalizing g with
  | nil => simp
  | cons a l ih =>
    rw [List.foldl_cons, ih, lookup_insertId]
    by_cases hda : d = a
    · subst hda
      simp [idsAt, lookup_insertId]
    · by_cases hdl : d ∈ l
      · simp [hda, hdl, idsAt, lookup_insertId]
      · simp [hda, hdl]

theorem lookup_foldl_eraseId (id : Int) (l : List CellCoord) (g : Grid) (d : CellCoord) :
    (l.foldl (eraseId id) g).lookup d =
      if d ∈ l then
        (match g.lookup d with
          | none => none
          | some ids => if ids.erase id = ∅ then none else some (ids.erase id))
      else g.lookup d := by
  induction l generalizing g with
  | nil => simp
  | cons a l ih =>
    rw [List.foldl_cons, ih, lookup_eraseId]
    by_cases hda : d = a
    · subst hda
      cases hl : g.lookup d with
      | none => simp
      | some ids =>
        by_cases he : ids.erase id = ∅
        · simp [he]
        · simp [he]
    · by_cases hdl : d ∈ l
      · simp [hda, hdl]
      · simp [hda, hdl]

/-- Id set of a cell after `addToCells`. -/
theorem idsAt_addToCells (s : SpatialGrid) (id x y w h : Int) (d : CellCoord) :
    idsAt (addToCells s id x y w h).grid d =
      if inCoveredRange s.cellSize x y w h d then insert id (idsAt s.grid d)
      else idsAt s.grid d := by
  unfold addToCells
  simp only [idsAt, lookup_foldl_insertId, mem_cellLoop, inCoveredRange]
  split_ifs with hr
  · have hr' : floorDiv x s.cellSize ≤ d.x ∧ d.x ≤ floorDiv (x + w - 1) s.cellSize ∧
        floorDiv y s.cellSize ≤ d.y ∧ d.y ≤ floorDiv (y + h - 1) s.cellSize := by tauto
    simp [hr']
  · have hr' : ¬ (floorDiv x s.cellSize ≤ d.x ∧ d.x ≤ floorDiv (x + w - 1) s.cellSize ∧
        floorDiv y s.cellSize ≤ d.y ∧ d.y ≤ floorDiv (y + h - 1) s.cellSize) := by tauto
    simp [hr']

/-- Id set of a cell after `removeFromCells`. -/
theorem idsAt_removeFromCells (s : SpatialGrid) (id x y w h : Int) (d : CellCoord) :
    idsAt (removeFromCells s id x y w h).grid d =
      if inCoveredRange s.cellSize x y w h d then (idsAt s.grid d).erase id
      else idsAt s.grid d := by
  unfold removeFromCells
  simp only [idsAt, lookup_foldl_eraseId, mem_cellLoop, inCoveredRange]
  split_ifs with hr
  · have hr' : floorDiv x s.cellSize ≤ d.x ∧ d.x ≤ floorDiv (x + w - 1) s.cellSize ∧
        floorDiv y s.cellSize ≤ d.y ∧ d.y ≤ floorDiv (y + h - 1) s.cellSize := by tauto
    cases hl : s.grid.lookup d with
    | none => simp [hr']
    | some ids =>
      by_cases he : ids.erase id = ∅
      · simp [hr', he]
      · simp [hr', he]
  · have hr' : ¬ (floorDiv x s.cellSize ≤ d.x ∧ d.x ≤ floorDiv (x + w - 1) s.cellSize ∧
        floorDiv y s.cellSize ≤ d.y ∧ d.y ≤ floorDiv (y + h - 1) s.cellSize) := by tauto
    simp [hr']

end SpatialGrid

namespace SpatialGrid

/-! ## Frame facts of the primitives -/

@[simp] theorem addToCells_objectData (s : SpatialGrid) (id x y w h : Int) :
    (addToCells s id x y w h).objectData = s.objectData := rfl

@[simp] theorem addToCells_cellSize (s : SpatialGrid) (id x y w h : Int) :
    (addToCells s id x y w h).cellSize = s.cellSize := rfl

@[simp] theorem removeFromCells_objectData (s : SpatialGrid) (id x y w h : Int) :
    (removeFromCells s id x y w h).objectData = s.objectData := rfl

@[simp] theorem removeFromCells_cellSize (s : SpatialGrid) (id x y w h : Int) :
    (removeFromCells s id x y w h).cellSize = s.cellSize := rfl

theorem lookup_objectData_insert (t : ObjectTable) (id id' : Int) (o : ObjectInfo) :
    (t.insert id o).lookup id' = if id' = id then some o else t.lookup id' := by
  split_ifs with h
  · subst h
    exact Finmap.lookup_insert t
  · exact Finmap.lookup_insert_of_ne t h

theorem lookup_objectData_erase (t : ObjectTable) (id id' : Int) :
    (t.erase id).lookup id' = if id' = id then none else t.lookup id' := by
  split_ifs with h
  · subst h
    exact Finmap.lookup_erase id' t
  · exact Finmap.lookup_erase_ne h

/-! ## No-empty-cells is preserved -/

theorem noEmpty_foldl_insertId (id : Int) (l : List CellCoord) (g : Grid)
    (hg : ∀ c, g.lookup c ≠ some ∅) (c : CellCoord) :
    (l.foldl (insertId id) g).lookup c ≠ some ∅ := by
  rw [lookup_foldl_insertId]
  split_ifs with h
  · intro he
    have := Option.some.inj he
    exact Finset.insert_ne_empty _ _ this
  · exact hg c

theorem noEmpty_foldl_eraseId (id : Int) (l : List CellCoord) (g : Grid)
    (hg : ∀ c, g.lookup c ≠ some ∅) (c : CellCoord) :
    (l.foldl (eraseId id) g).lookup c ≠ some ∅ := by
  rw [lookup_foldl_eraseId]
  split_ifs with h
  · cases hl : g.lookup c with
    | none => simp
    | some ids =>
      by_cases he : ids.erase id = ∅
      · simp [he]
      · simp only [he, if_false]
        intro h2
        exact he (Option.some.inj h2)
  · exact hg c

theorem NoEmptyCells.noEmpty_addToCells {s : SpatialGrid} (hs : NoEmptyCells s) (id x y w h : Int) :
    NoEmptyCells (addToCells s id x y w h) := by
  intro c
  exact noEmpty_foldl_insertId id _ s.grid hs c

theorem NoEmptyCells.noEmpty_removeFromCells {s : SpatialGrid} (hs : NoEmptyCells s)
    (id x y w h : Int) : NoEmptyCells (removeFromCells s id x y w h) := by
  intro c
  exact noEmpty_foldl_eraseId id _ s.grid hs c

theorem NoEmptyCells.noEmpty_addObject {s : SpatialGrid} (hs : NoEmptyCells s) (id x y w h : Int) :
    NoEmptyCells (addObject s id x y w h) := by
  unfold SpatialGrid.addObject
  apply NoEmptyCells.noEmpty_addToCells
  exact hs

theorem NoEmptyCells.noEmpty_removeObject {s : SpatialGrid} (hs : NoEmptyCells s) (id : Int) :
    NoEmptyCells (removeObject s id) := by
  unfold SpatialGrid.removeObject
  cases hl : s.objectData.lookup id with
  | none => exact hs
  | some info =>
    exact NoEmptyCells.noEmpty_removeFromCells hs id info.x info.y info.width info.height

theorem NoEmptyCells.noEmpty_updateObject {s : SpatialGrid} (hs : NoEmptyCells s)
    (id x y w h : Int) : NoEmptyCells (updateObject s id x y w h) := by
  unfold SpatialGrid.updateObject
  cases hl : s.objectData.lookup id with
  | none => exact NoEmptyCells.noEmpty_addObject hs id x y w h
  | some info =>
    simp only
    split_ifs with h1 h2
    · exact hs
    · exact NoEmptyCells.noEmpty_addToCells (NoEmptyCells.noEmpty_removeFromCells hs _ _ _ _ _) _ _ _ _ _
    · exact hs

/-- A property kept by every `updateObject` is kept by `updateObjectsBatch`. -/
theorem updateObjectsBatch_preserves (P : SpatialGrid → Prop)
    (hP : ∀ s id x y w h, P s → P (updateObject s id x y w h))
    (s : SpatialGrid) (hs : P s) (ids xs ys ws hs' : List Int) :
    P (updateObjectsBatch s ids xs ys ws hs').2 := by
  unfold updateObjectsBatch
  dsimp only
  split_ifs with hlen
  · exact hs
  · generalize List.range ids.length = l
    induction l generalizing s with
    | nil => exact hs
    | cons i l ih =>
      rw [List.foldl_cons]
      exact ih _ (hP _ _ _ _ _ _ hs)

theorem NoEmptyCells.noEmpty_new (cellSize : Int) : NoEmptyCells (new cellSize) := by
  intro c
  simp [SpatialGrid.new]

theorem NoEmptyCells.noEmpty_clear (s : SpatialGrid) : NoEmptyCells (clear s) := by
  intro c
  simp [SpatialGrid.clear]

theorem NoEmptyCells.noEmpty_step {s : SpatialGrid} (hs : NoEmptyCells s) (op : Op) :
    NoEmptyCells (step s op) := by
  cases op with
  | add id x y w h => exact NoEmptyCells.noEmpty_addObject hs id x y w h
  | remove id => exact NoEmptyCells.noEmpty_removeObject hs id
  | update id x y w h => exact NoEmptyCells.noEmpty_updateObject hs id x y w h
  | batch ids xs ys ws hs' =>
    exact updateObjectsBatch_preserves NoEmptyCells
      (fun s id x y w h hs => NoEmptyCells.noEmpty_updateObject hs id x y w h) s hs ids xs ys ws hs'
  | clear => exact NoEmptyCells.noEmpty_clear s

theorem NoEmptyCells.noEmpty_run {s : SpatialGrid} (hs : NoEmptyCells s) (ops : List Op) :
    NoEmptyCells (run s ops) := by
  unfold SpatialGrid.run
  induction ops generalizing s with
  | nil => exact hs
  | cons op ops ih =>
    rw [List.foldl_cons]
    exact ih (NoEmptyCells.noEmpty_step hs op)

end SpatialGrid

namespace SpatialGrid

/-! ## Membership is preserved -/

theorem idsAt_addObject (s : SpatialGrid) (id x y w h : Int) (d : CellCoord) :
    idsAt (addObject s id x y w h).grid d =
      if inCoveredRange s.cellSize x y w h d then insert id (idsAt s.grid d)
      else idsAt s.grid d :=
  idsAt_addToCells _ id x y w h d

@[simp] theorem addObject_objectData (s : SpatialGrid) (id x y w h : Int) :
    (addObject s id x y w h).objectData = s.objectData.insert id ⟨x, y, w, h⟩ := rfl

@[simp] theorem addObject_cellSize (s : SpatialGrid) (id x y w h : Int) :
    (addObject s id x y w h).cellSize = s.cellSize := rfl

/-- In a state with the membership invariant an id without an Object Table
entry is in no cell. -/
theorem Membership.not_mem_of_absent {s : SpatialGrid} (hs : Membership s) {id : Int}
    (habs : s.objectData.lookup id = none) (d : CellCoord) : id ∉ idsAt s.grid d := by
  intro hmem
  obtain ⟨o, ho, _⟩ := (hs id d).1 hmem
  rw [habs] at ho
  exact Option.noConfusion ho

theorem Membership.membership_addObject {s : SpatialGrid} (hs : Membership s) (id x y w h : Int)
    (hfresh : s.objectData.lookup id = none) : Membership (addObject s id x y w h) := by
  intro id' d
  rw [idsAt_addObject, addObject_objectData, addObject_cellSize, lookup_objectData_insert]
  by_cases hid : id' = id
  · subst hid
    have hno := hs.not_mem_of_absent hfresh d
    by_cases hr : inCoveredRange s.cellSize x y w h d
    · simp [hr]
    · simp only [hr, if_false, if_true]
      constructor
      · intro hm
        exact absurd hm hno
      · rintro ⟨o, ho, hro⟩
        cases Option.some.inj ho
        exact absurd hro hr
  · simp only [hid, if_false]
    rw [← hs id' d]
    split_ifs
    · simp [hid]
    · rfl

theorem Membership.membership_removeObject {s : SpatialGrid} (hs : Membership s) (id : Int) :
    Membership (removeObject s id) := by
  unfold SpatialGrid.removeObject
  cases hl : s.objectData.lookup id with
  | none => exact hs
  | some info =>
    intro id' d
    show id' ∈ idsAt (removeFromCells s id info.x info.y info.width info.height).grid d ↔
      ∃ o, (s.objectData.erase id).lookup id' = some o ∧
        inCoveredRange s.cellSize o.x o.y o.width o.height d
    rw [idsAt_removeFromCells, lookup_objectData_erase]
    by_cases hid : id' = id
    · subst hid
      simp only [if_true]
      constructor
      · intro hm
        exfalso
        split_ifs at hm with hr
        · exact Finset.not_mem_erase _ _ hm
        · obtain ⟨o, ho, hro⟩ := (hs id' d).1 hm
          rw [hl] at ho
          cases Option.some.inj ho
          exact hr hro
      · rintro ⟨o, ho, _⟩
        exact Option.noConfusion ho
    · simp only [hid, if_false]
      rw [← hs id' d]
      split_ifs
      · simp [hid]
      · rfl

theorem Membership.membership_updateObject {s : SpatialGrid} (hs : Membership s) (id x y w h : Int) :
    Membership (updateObject s id x y w h) := by
  unfold SpatialGrid.updateObject
  cases hl : s.objectData.lookup id with
  | none => exact hs.membership_addObject id x y w h hl
  | some info =>
    simp only
    split_ifs with h1 h2
    · exact hs
    · -- the footprint changed: unregister, then register
      intro id' d
      show id' ∈ idsAt (addToCells (removeFromCells s id info.x info.y info.width info.height)
          id x y w h).grid d ↔
        ∃ o, (s.objectData.insert id ⟨x, y, w, h⟩).lookup id' = some o ∧
          inCoveredRange s.cellSize o.x o.y o.width o.height d
      rw [idsAt_addToCells, idsAt_removeFromCells, removeFromCells_cellSize,
        lookup_objectData_insert]
      have hold : id ∈ idsAt s.grid d ↔
          inCoveredRange s.cellSize info.x info.y info.width info.height d := by
        rw [hs id d]
        constructor
        · rintro ⟨o, ho, hro⟩
          rw [hl] at ho
          cases Option.some.inj ho
          exact hro
        · intro hr
          exact ⟨info, hl, hr⟩
      by_cases hid : id' = id
      · subst hid
        by_cases hr : inCoveredRange s.cellSize x y w h d
        · simp [hr]
        · simp only [hr, if_false, if_true]
          constructor
          · intro hm
            exfalso
            split_ifs at hm with hr2
            · exact Finset.not_mem_erase _ _ hm
            · exact hr2 (hold.1 hm)
          · rintro ⟨o, ho, hro⟩
            cases Option.some.inj ho
            exact absurd hro hr
      · simp only [hid, if_false]
        rw [← hs id' d]
        split_ifs <;> simp [hid]
    · -- same footprint: only the Object Table entry changes
      intro id' d
      show id' ∈ idsAt s.grid d ↔
        ∃ o, (s.objectData.insert id ⟨x, y, w, h⟩).lookup id' = some o ∧
          inCoveredRange s.cellSize o.x o.y o.width o.height d
      rw [lookup_objectData_insert]
      by_cases hid : id' = id
      · subst hid
        simp only [if_true]
        rw [hs id' d]
        have hsame : inCoveredRange s.cellSize info.x info.y info.width info.height d ↔
            inCoveredRange s.cellSize x y w h d := by
          unfold inCoveredRange
          have e1 : floorDiv info.x s.cellSize = floorDiv x s.cellSize := by tauto
          have e2 : floorDiv info.y s.cellSize = floorDiv y s.cellSize := by tauto
          have e3 : floorDiv (info.x + info.width - 1) s.cellSize =
              floorDiv (x + w - 1) s.cellSize := by tauto
          have e4 : floorDiv (info.y + info.height - 1) s.cellSize =
              floorDiv (y + h - 1) s.cellSize := by tauto
          rw [e1, e2, e3, e4]
        constructor
        · rintro ⟨o, ho, hro⟩
          rw [hl] at ho
          cases Option.some.inj ho
          exact ⟨_, rfl, hsame.1 hro⟩
        · rintro ⟨o, ho, hro⟩
          cases Option.some.inj ho
          exact ⟨info, hl, hsame.2 hro⟩
      · simp only [hid, if_false]
        exact hs id' d

theorem Membership.membership_new (cellSize : Int) : Membership (new cellSize) := by
  intro id d
  simp [SpatialGrid.new, idsAt]

theorem Membership.membership_clear (s : SpatialGrid) : Membership (clear s) := by
  intro id d
  simp [SpatialGrid.clear, idsAt]

theorem Membership.membership_run {s : SpatialGrid} (hs : Membership s) (ops : List Op)
    (hfresh : addsFresh s ops = true) : Membership (run s ops) := by
  unfold SpatialGrid.run
  induction ops generalizing s with
  | nil => exact hs
  | cons op ops ih =>
    rw [List.foldl_cons]
    simp only [addsFresh, Bool.and_eq_true] at hfresh
    apply ih _ hfresh.2
    cases op with
    | add id x y w h =>
      have hf : s.objectData.lookup id = none := by simpa using hfresh.1
      exact hs.membership_addObject id x y w h hf
    | remove id => exact hs.membership_removeObject id
    | update id x y w h => exact hs.membership_updateObject id x y w h
    | batch ids xs ys ws hs' =>
      exact updateObjectsBatch_preserves Membership
        (fun s id x y w h hs => Membership.membership_updateObject hs id x y w h) s hs ids xs ys ws hs'
    | clear => exact Membership.membership_clear s

end SpatialGrid

namespace SpatialGrid

/-! ## The cell size is fixed for the lifetime of an instance -/

theorem updateObject_cellSize (s : SpatialGrid) (id x y w h : Int) :
    (updateObject s id x y w h).cellSize = s.cellSize := by
  unfold updateObject
  cases s.objectData.lookup id with
  | none => rfl
  | some info =>
    simp only
    split_ifs <;> rfl

theorem removeObject_cellSize (s : SpatialGrid) (id : Int) :
    (removeObject s id).cellSize = s.cellSize := by
  unfold removeObject
  cases s.objectData.lookup id <;> rfl

theorem step_cellSize (s : SpatialGrid) (op : Op) : (step s op).cellSize = s.cellSize := by
  cases op with
  | add id x y w h => rfl
  | remove id => exact removeObject_cellSize s id
  | update id x y w h => exact updateObject_cellSize s id x y w h
  | batch ids xs ys ws hs =>
    exact updateObjectsBatch_preserves (fun t => t.cellSize = s.cellSize)
      (fun t id x y w h ht => (updateObject_cellSize t id x y w h).trans ht) s rfl
      ids xs ys ws hs
  | clear => rfl

theorem run_cellSize (s : SpatialGrid) (ops : List Op) : (run s ops).cellSize = s.cellSize := by
  unfold run
  induction ops generalizing s with
  | nil => rfl
  | cons op ops ih =>
    rw [List.foldl_cons, ih, step_cellSize]

/-! ## Claims C1 - C3 -/

/-- C1 (membership invariant). In the state reached from a freshly constructed
index with a positive cell size by any finite sequence of `addObject` (each
called with an id that has no Object Table entry at that moment),
`removeObject`, `updateObject`, `updateObjectsBatch` and `clear`, an id is in
the set of a cell if and only if the id has an Object Table entry whose
covered-cell range `[floorDiv x .. floorDiv (x+w-1)] x [floorDiv y .. floorDiv (y+h-1)]`
contains the cell. -/
theorem C1_membership_invariant (cellSize : Int) (_hc : 0 < cellSize) (ops : List Op)
    (hfresh : addsFresh (new cellSize) ops = true) (id : Int) (c : CellCoord) :
    id ∈ idsAt (run (new cellSize) ops).grid c ↔
      ∃ o : ObjectInfo, (run (new cellSize) ops).objectData.lookup id = some o ∧
        inCoveredRange cellSize o.x o.y o.width o.height c := by
  have h := (Membership.membership_new cellSize).membership_run ops hfresh id c
  rw [run_cellSize] at h
  exact h

/-- Witness of C1: a run on cell size 100 that adds two objects (one across
the origin), moves one to another cell, batch-updates the other and removes
the first; object 2 ends in cell (0, 0) only. -/
theorem C1_membership_invariant_witness :
    (0 : Int) < 100 ∧
      addsFresh (new 100)
        [Op.add 1 50 50 10 10, Op.add 2 (-150) 0 300 10, Op.update 1 250 50 10 10,
          Op.batch [2] [0] [0] [5] [5], Op.remove 1] = true ∧
      (2 ∈ idsAt (run (new 100)
        [Op.add 1 50 50 10 10, Op.add 2 (-150) 0 300 10, Op.update 1 250 50 10 10,
          Op.batch [2] [0] [0] [5] [5], Op.remove 1]).grid ⟨0, 0⟩ ↔
        ∃ o : ObjectInfo, (run (new 100)
          [Op.add 1 50 50 10 10, Op.add 2 (-150) 0 300 10, Op.update 1 250 50 10 10,
            Op.batch [2] [0] [0] [5] [5], Op.remove 1]).objectData.lookup 2 = some o ∧
          inCoveredRange 100 o.x o.y o.width o.height ⟨0, 0⟩) :=
  ⟨by decide, by decide,
    C1_membership_invariant 100 (by decide) _ (by decide) 2 ⟨0, 0⟩⟩

/-- C2 (no empty cells). In the state reached from a freshly constructed index
by any finite sequence of `addObject` (also with an id already present),
`removeObject`, `updateObject`, `updateObjectsBatch` and `clear`, no cell entry
of the grid maps to the empty set. -/
theorem C2_no_empty_cells (cellSize : Int) (ops : List Op) (c : CellCoord) :
    (run (new cellSize) ops).grid.lookup c ≠ some ∅ :=
  (NoEmptyCells.noEmpty_new cellSize).noEmpty_run ops c

/-- C3 (floor division). For a positive cell size `b`, `floorDiv a b` is the
floor of `a / b`: it is the unique `q` with `q * b ≤ a < (q + 1) * b`, it equals
the floor of the rational quotient, and it takes the four values listed in the
specification. -/
theorem C3_floorDiv_floor (a b : Int) (hb : 0 < b) :
    (floorDiv a b * b ≤ a ∧ a < (floorDiv a b + 1) * b) ∧
      (∀ q : Int, q * b ≤ a → a < (q + 1) * b → q = floorDiv a b) ∧
      floorDiv a b = ⌊(a : ℚ) / (b : ℚ)⌋ ∧
      floorDiv (-1) 100 = -1 ∧ floorDiv 0 100 = 0 ∧ floorDiv 150 100 = 1 ∧
      floorDiv (-150) 100 = -2 := by
  have hlo : floorDiv a b * b ≤ a := by
    rw [floorDiv_eq_ediv a b hb]
    exact Int.ediv_mul_le _ (ne_of_gt hb)
  have hhi : a < (floorDiv a b + 1) * b := by
    rw [floorDiv_eq_ediv a b hb]
    exact Int.lt_ediv_add_one_mul_self _ hb
  refine ⟨⟨hlo, hhi⟩, ?_, ?_, by decide, by decide, by decide, by decide⟩
  · intro q hq1 hq2
    rw [floorDiv_eq_ediv a b hb]
    apply le_antisymm
    · exact (Int.le_ediv_iff_mul_le hb).2 hq1
    · have : a / b < q + 1 := (Int.ediv_lt_iff_lt_mul hb).2 hq2
      omega
  · symm
    rw [Int.floor_eq_iff]
    have hbq : (0 : ℚ) < (b : ℚ) := by exact_mod_cast hb
    constructor
    · rw [le_div_iff₀ hbq]
      exact_mod_cast hlo
    · rw [div_lt_iff₀ hbq]
      exact_mod_cast hhi

/-- Witness of C3 at `a = -150`, `b = 100`. -/
theorem C3_floorDiv_floor_witness :
    (0 : Int) < 100 ∧
      ((floorDiv (-150) 100 * 100 ≤ -150 ∧ -150 < (floorDiv (-150) 100 + 1) * 100) ∧
        (∀ q : Int, q * 100 ≤ -150 → -150 < (q + 1) * 100 → q = floorDiv (-150) 100) ∧
        floorDiv (-150) 100 = ⌊((-150 : Int) : ℚ) / ((100 : Int) : ℚ)⌋ ∧
        floorDiv (-1) 100 = -1 ∧ floorDiv 0 100 = 0 ∧ floorDiv 150 100 = 1 ∧
        floorDiv (-150) 100 = -2) :=
  ⟨by decide, C3_floorDiv_floor (-150) 100 (by decide)⟩

end SpatialGrid

namespace SpatialGrid

/-! ## Claim C4: add then remove -/

/-- State after `addObject` followed by `removeObject` of the same id. -/
theorem removeObject_addObject (s : SpatialGrid) (id x y w h : Int) :
    (removeObject (addObject s id x y w h) id).grid =
        (removeFromCells (addObject s id x y w h) id x y w h).grid ∧
      (removeObject (addObject s id x y w h) id).objectData =
        (s.objectData.insert id ⟨x, y, w, h⟩).erase id := by
  unfold removeObject
  have hl : (addObject s id x y w h).objectData.lookup id = some ⟨x, y, w, h⟩ := by
    rw [addObject_objectData]
    exact Finmap.lookup_insert _
  rw [hl]
  exact ⟨rfl, rfl⟩

/-- Unregistering right after registering restores every cell entry, provided
the id was in no cell and the grid had no empty entry. -/
theorem lookup_erase_after_insert (id : Int) (l : List CellCoord) (g : Grid)
    (hno : ∀ c, id ∉ idsAt g c) (hne : ∀ c, g.lookup c ≠ some ∅) (d : CellCoord) :
    (l.foldl (eraseId id) (l.foldl (insertId id) g)).lookup d = g.lookup d := by
  rw [lookup_foldl_eraseId, lookup_foldl_insertId]
  split_ifs with hd
  · simp only
    rw [Finset.erase_insert (hno d)]
    cases hl : g.lookup d with
    | none => simp [idsAt, hl]
    | some ids =>
      have hids : ids ≠ ∅ := by
        intro he
        exact hne d (by rw [hl, he])
      simp [idsAt, hl, hids]
  · rfl

/-- C4 (round trip). In a state with the membership and no-empty-cells
invariants, `addObject(id, R)` for an id without an Object Table entry followed
by `removeObject(id)` gives back the grid and the Object Table of the state
before the add, for every rectangle `R`; on a freshly constructed index both
are empty again. -/
theorem C4_add_remove_round_trip (s : SpatialGrid) (hm : Membership s) (hn : NoEmptyCells s)
    (id : Int) (hfresh : s.objectData.lookup id = none) (x y w h : Int) :
    ((removeObject (addObject s id x y w h) id).grid = s.grid ∧
        (removeObject (addObject s id x y w h) id).objectData = s.objectData) ∧
      ∀ cellSize : Int,
        (removeObject (addObject (new cellSize) id x y w h) id).grid = ∅ ∧
          (removeObject (addObject (new cellSize) id x y w h) id).objectData = ∅ := by
  have main : ∀ t : SpatialGrid, Membership t → NoEmptyCells t →
      t.objectData.lookup id = none →
      (removeObject (addObject t id x y w h) id).grid = t.grid ∧
        (removeObject (addObject t id x y w h) id).objectData = t.objectData := by
    intro t htm htn htf
    obtain ⟨hg, ho⟩ := removeObject_addObject t id x y w h
    constructor
    · rw [hg]
      apply Finmap.ext_lookup
      intro d
      exact lookup_erase_after_insert id _ t.grid (fun c => htm.not_mem_of_absent htf c) htn d
    · rw [ho]
      apply Finmap.ext_lookup
      intro id'
      rw [lookup_objectData_erase, lookup_objectData_insert]
      split_ifs with hid
      · rw [hid, htf]
      · rfl
  refine ⟨main s hm hn hfresh, ?_⟩
  intro cellSize
  exact main (new cellSize) (Membership.membership_new cellSize) (NoEmptyCells.noEmpty_new cellSize)
    (Finmap.lookup_empty id)

/-- Witness of C4: on an index that holds object 7 in cell (0, 0), object 1 is
added over the four cells around the origin and removed again. -/
theorem C4_add_remove_round_trip_witness :
    Membership (addObject (new 100) 7 10 10 5 5) ∧
      NoEmptyCells (addObject (new 100) 7 10 10 5 5) ∧
      (addObject (new 100) 7 10 10 5 5).objectData.lookup 1 = none ∧
      (((removeObject (addObject (addObject (new 100) 7 10 10 5 5) 1 (-5) (-5) 10 10) 1).grid =
            (addObject (new 100) 7 10 10 5 5).grid ∧
          (removeObject (addObject (addObject (new 100) 7 10 10 5 5) 1 (-5) (-5) 10 10)
            1).objectData = (addObject (new 100) 7 10 10 5 5).objectData) ∧
        ∀ cellSize : Int,
          (removeObject (addObject (new cellSize) 1 (-5) (-5) 10 10) 1).grid = ∅ ∧
            (removeObject (addObject (new cellSize) 1 (-5) (-5) 10 10) 1).objectData = ∅) :=
  ⟨(Membership.membership_new 100).membership_addObject 7 10 10 5 5 (by decide),
    (NoEmptyCells.noEmpty_new 100).noEmpty_addObject 7 10 10 5 5,
    by decide,
    C4_add_remove_round_trip (addObject (new 100) 7 10 10 5 5)
      ((Membership.membership_new 100).membership_addObject 7 10 10 5 5 (by decide))
      ((NoEmptyCells.noEmpty_new 100).noEmpty_addObject 7 10 10 5 5) 1 (by decide) (-5) (-5) 10 10⟩

end SpatialGrid

namespace SpatialGrid

/-! ## Queries over a cell range -/

/-- Membership in the accumulator of a cell-range loop that adds `f ids` for
every visited cell with an entry `ids`. -/
theorem mem_foldl_cells (g : Grid) (f : Finset Int → Finset Int) (l : List CellCoord)
    (init : Finset Int) (id : Int) :
    id ∈ l.foldl
        (fun acc c =>
          match g.lookup c with
          | some ids => acc ∪ f ids
          | none => acc)
        init ↔
      id ∈ init ∨ ∃ c ∈ l, ∃ ids, g.lookup c = some ids ∧ id ∈ f ids := by
  induction l generalizing init with
  | nil => simp
  | cons a l ih =>
    rw [List.foldl_cons, ih]
    cases hl : g.lookup a with
    | none =>
      simp only [List.mem_cons]
      constructor
      · rintro (h | ⟨c, hc, ids, h1, h2⟩)
        · exact Or.inl h
        · exact Or.inr ⟨c, Or.inr hc, ids, h1, h2⟩
      · rintro (h | ⟨c, hc | hc, ids, h1, h2⟩)
        · exact Or.inl h
        · subst hc
          rw [hl] at h1
          exact Option.noConfusion h1
        · exact Or.inr ⟨c, hc, ids, h1, h2⟩
    | some ids0 =>
      simp only [List.mem_cons, Finset.mem_union]
      constructor
      · rintro ((h | h) | ⟨c, hc, ids, h1, h2⟩)
        · exact Or.inl h
        · exact Or.inr ⟨a, Or.inl rfl, ids0, hl, h⟩
        · exact Or.inr ⟨c, Or.inr hc, ids, h1, h2⟩
      · rintro (h | ⟨c, hc | hc, ids, h1, h2⟩)
        · exact Or.inl (Or.inl h)
        · subst hc
          rw [hl] at h1
          cases Option.some.inj h1
          exact Or.inl (Or.inr h2)
        · exact Or.inr ⟨c, hc, ids, h1, h2⟩

theorem mem_idsAt_iff (g : Grid) (c : CellCoord) (id : Int) :
    id ∈ idsAt g c ↔ ∃ ids, g.lookup c = some ids ∧ id ∈ ids := by
  unfold idsAt
  cases g.lookup c with
  | none => simp
  | some ids => simp

/-- Result of `getObjectsInRect`, id by id. -/
theorem mem_getObjectsInRect (s : SpatialGrid) (x y w h id : Int) :
    id ∈ (getObjectsInRect s x y w h).1 ↔
      ∃ c, inCoveredRange s.cellSize x y w h c ∧ id ∈ idsAt s.grid c := by
  unfold getObjectsInRect
  dsimp only
  rw [mem_foldl_cells s.grid (fun ids => ids)]
  simp only [Finset.not_mem_empty, false_or, mem_cellLoop, mem_idsAt_iff]
  rfl

/-- Result of `getObjectsAt`. -/
theorem getObjectsAt_eq (s : SpatialGrid) (px py : Int) :
    getObjectsAt s px py =
      idsAt s.grid ⟨floorDiv px s.cellSize, floorDiv py s.cellSize⟩ := by
  unfold getObjectsAt getCellCoord idsAt
  dsimp only
  cases s.grid.lookup ⟨floorDiv px s.cellSize, floorDiv py s.cellSize⟩ <;> rfl

/-- The cell of a point of a rectangle with a positive cell size lies in the
covered-cell range of the rectangle. -/
theorem inCoveredRange_of_point (b : Int) (hb : 0 < b) (x y w h px py : Int)
    (hx1 : x ≤ px) (hx2 : px ≤ x + w - 1) (hy1 : y ≤ py) (hy2 : py ≤ y + h - 1) :
    inCoveredRange b x y w h ⟨floorDiv px b, floorDiv py b⟩ :=
  ⟨floorDiv_mono b hb hx1, floorDiv_mono b hb hx2, floorDiv_mono b hb hy1,
    floorDiv_mono b hb hy2⟩

/-! ## Claims C5 - C7 -/

/-- C5 (rectangle query). In a state with the membership invariant the result
of `getObjectsInRect(x, y, w, h)` is, as a set, the union of the id sets of the
cells in the covered-cell range of the query, which is the set of tracked ids
whose own covered-cell range shares a cell with that range; with cell size 100
and `addObject(1, 50, 50, 10, 10)` the query `(0, 0, 200, 200)` returns `[1]`. -/
theorem C5_getObjectsInRect_union (s : SpatialGrid) (hm : Membership s)
    (x y w h id : Int) :
    (id ∈ (getObjectsInRect s x y w h).1 ↔
        ∃ c, inCoveredRange s.cellSize x y w h c ∧ id ∈ idsAt s.grid c) ∧
      (id ∈ (getObjectsInRect s x y w h).1 ↔
        ∃ o, s.objectData.lookup id = some o ∧
          ∃ c, inCoveredRange s.cellSize o.x o.y o.width o.height c ∧
            inCoveredRange s.cellSize x y w h c) ∧
      (getObjectsInRect (addObject (new 100) 1 50 50 10 10) 0 0 200 200).1 = {1} := by
  refine ⟨mem_getObjectsInRect s x y w h id, ?_, by decide⟩
  rw [mem_getObjectsInRect]
  constructor
  · rintro ⟨c, hq, hmem⟩
    obtain ⟨o, ho, hro⟩ := (hm id c).1 hmem
    exact ⟨o, ho, c, hro, hq⟩
  · rintro ⟨o, ho, c, hro, hq⟩
    exact ⟨c, hq, (hm id c).2 ⟨o, ho, hro⟩⟩

/-- Witness of C5: the scenario state, query `(0, 0, 200, 200)`, id 1. -/
theorem C5_getObjectsInRect_union_witness :
    Membership (addObject (new 100) 1 50 50 10 10) ∧
      ((1 ∈ (getObjectsInRect (addObject (new 100) 1 50 50 10 10) 0 0 200 200).1 ↔
          ∃ c, inCoveredRange (addObject (new 100) 1 50 50 10 10).cellSize 0 0 200 200 c ∧
            1 ∈ idsAt (addObject (new 100) 1 50 50 10 10).grid c) ∧
        (1 ∈ (getObjectsInRect (addObject (new 100) 1 50 50 10 10) 0 0 200 200).1 ↔
          ∃ o, (addObject (new 100) 1 50 50 10 10).objectData.lookup 1 = some o ∧
            ∃ c, inCoveredRange (addObject (new 100) 1 50 50 10 10).cellSize
                o.x o.y o.width o.height c ∧
              inCoveredRange (addObject (new 100) 1 50 50 10 10).cellSize 0 0 200 200 c) ∧
        (getObjectsInRect (addObject (new 100) 1 50 50 10 10) 0 0 200 200).1 = {1}) :=
  ⟨(Membership.membership_new 100).membership_addObject 1 50 50 10 10 (by decide),
    C5_getObjectsInRect_union (addObject (new 100) 1 50 50 10 10)
      ((Membership.membership_new 100).membership_addObject 1 50 50 10 10 (by decide)) 0 0 200 200 1⟩

/-- C6, refuted as stated: the claim does not require a positive cell size. On
an index constructed with cell size -100 the object 1 = `(0, 0, 200, 10)` has
the column range `floorDiv 0 = 0 .. floorDiv 199 = 199 / -100 = -1`, which is
empty, so `addToCells` registers it in no cell; the membership invariant holds,
the object and the query `(0, 0, 10, 10)` share the point `(0, 0)`, and
`getObjectsInRect(0, 0, 10, 10)` does not return the id. -/
theorem C6_negative_cell_size_missed :
    Membership (addObject (new (-100)) 1 0 0 200 10) ∧
      (addObject (new (-100)) 1 0 0 200 10).objectData.lookup 1 = some ⟨0, 0, 200, 10⟩ ∧
      (1 : Int) ≤ 200 ∧ (1 : Int) ≤ 10 ∧
      (∃ px py : Int,
        ((0 : Int) ≤ px ∧ px ≤ 0 + 200 - 1 ∧ (0 : Int) ≤ py ∧ py ≤ 0 + 10 - 1) ∧
          ((0 : Int) ≤ px ∧ px ≤ 0 + 10 - 1 ∧ (0 : Int) ≤ py ∧ py ≤ 0 + 10 - 1)) ∧
      1 ∉ (getObjectsInRect (addObject (new (-100)) 1 0 0 200 10) 0 0 10 10).1 :=
  ⟨(Membership.membership_new (-100)).membership_addObject 1 0 0 200 10 (by decide),
    by decide, by decide, by decide, ⟨0, 0, by decide, by decide⟩, by decide⟩

/-- C6, amended (no false negatives of the rectangle query). In a state with the
membership invariant and a positive cell size, a tracked object with rectangle
`(x, y, w, h)`, `w ≥ 1`, `h ≥ 1`, is in the result of
`getObjectsInRect(qx, qy, qw, qh)`, `qw ≥ 1`, `qh ≥ 1`, whenever the integer
rectangles `[x, x+w-1] x [y, y+h-1]` and `[qx, qx+qw-1] x [qy, qy+qh-1]` have a
common point. -/
theorem C6_getObjectsInRect_conservative (s : SpatialGrid) (hc : 0 < s.cellSize)
    (hm : Membership s) (id : Int) (o : ObjectInfo)
    (ho : s.objectData.lookup id = some o) (_hw : 1 ≤ o.width) (_hh : 1 ≤ o.height)
    (qx qy qw qh : Int) (_hqw : 1 ≤ qw) (_hqh : 1 ≤ qh)
    (hcommon : ∃ px py : Int,
      (o.x ≤ px ∧ px ≤ o.x + o.width - 1 ∧ o.y ≤ py ∧ py ≤ o.y + o.height - 1) ∧
        (qx ≤ px ∧ px ≤ qx + qw - 1 ∧ qy ≤ py ∧ py ≤ qy + qh - 1)) :
    id ∈ (getObjectsInRect s qx qy qw qh).1 := by
  obtain ⟨px, py, ⟨h1, h2, h3, h4⟩, ⟨h5, h6, h7, h8⟩⟩ := hcommon
  rw [mem_getObjectsInRect]
  refine ⟨⟨floorDiv px s.cellSize, floorDiv py s.cellSize⟩,
    inCoveredRange_of_point _ hc qx qy qw qh px py h5 h6 h7 h8, ?_⟩
  exact (hm id _).2 ⟨o, ho, inCoveredRange_of_point _ hc _ _ _ _ px py h1 h2 h3 h4⟩

/-- Witness of C6: object 1 = `(-150, 0, 300, 10)` on cell size 100 and the
query `(140, 5, 20, 20)` meet at the point `(149, 9)`. -/
theorem C6_getObjectsInRect_conservative_witness :
    (0 : Int) < (addObject (new 100) 1 (-150) 0 300 10).cellSize ∧
      Membership (addObject (new 100) 1 (-150) 0 300 10) ∧
      (addObject (new 100) 1 (-150) 0 300 10).objectData.lookup 1 =
        some ⟨-150, 0, 300, 10⟩ ∧
      1 ∈ (getObjectsInRect (addObject (new 100) 1 (-150) 0 300 10) 140 5 20 20).1 :=
  ⟨by decide, (Membership.membership_new 100).membership_addObject 1 (-150) 0 300 10 (by decide), by decide,
    C6_getObjectsInRect_conservative (addObject (new 100) 1 (-150) 0 300 10) (by decide)
      ((Membership.membership_new 100).membership_addObject 1 (-150) 0 300 10 (by decide)) 1 ⟨-150, 0, 300, 10⟩
      (by decide) (by decide) (by decide) 140 5 20 20 (by decide) (by decide)
      ⟨149, 9, by decide, by decide⟩⟩

/-- C7, refuted as stated: the claim does not require a positive cell size. On
an index constructed with cell size -100 the object 1 = `(0, 0, 200, 10)` is
registered in no cell (its column range `0 .. 199 / -100 = -1` is empty); the
membership invariant holds, the rectangle `[0, 199] x [0, 9]` contains the
point `(0, 0)`, and `getObjectsAt(0, 0)` does not return the id. -/
theorem C7_negative_cell_size_missed :
    Membership (addObject (new (-100)) 1 0 0 200 10) ∧
      (addObject (new (-100)) 1 0 0 200 10).objectData.lookup 1 = some ⟨0, 0, 200, 10⟩ ∧
      (1 : Int) ≤ 200 ∧ (1 : Int) ≤ 10 ∧
      ((0 : Int) ≤ 0 ∧ (0 : Int) ≤ 0 + 200 - 1 ∧ (0 : Int) ≤ 0 ∧ (0 : Int) ≤ 0 + 10 - 1) ∧
      1 ∉ getObjectsAt (addObject (new (-100)) 1 0 0 200 10) 0 0 :=
  ⟨(Membership.membership_new (-100)).membership_addObject 1 0 0 200 10 (by decide),
    by decide, by decide, by decide, by decide, by decide⟩

/-- C7, amended (point query). In a state with the membership invariant
`getObjectsAt(px, py)` returns the id set of the single cell
`(floorDiv px, floorDiv py)`, empty when the cell has no entry; these are the
tracked ids whose covered-cell range contains that cell, so (the cell size
being positive) every tracked object of positive width and height whose
rectangle `[x, x+w-1] x [y, y+h-1]` contains the point is returned; with cell
size 100 and `addObject(1, 50, 50, 10, 10)`, `getObjectsAt(55, 55)` is `[1]`. -/
theorem C7_getObjectsAt_cell (s : SpatialGrid) (hm : Membership s) (px py : Int) :
    getObjectsAt s px py =
        idsAt s.grid ⟨floorDiv px s.cellSize, floorDiv py s.cellSize⟩ ∧
      (s.grid.lookup ⟨floorDiv px s.cellSize, floorDiv py s.cellSize⟩ = none →
        getObjectsAt s px py = ∅) ∧
      (∀ id : Int, id ∈ getObjectsAt s px py ↔
        ∃ o, s.objectData.lookup id = some o ∧
          inCoveredRange s.cellSize o.x o.y o.width o.height
            ⟨floorDiv px s.cellSize, floorDiv py s.cellSize⟩) ∧
      (0 < s.cellSize → ∀ (id : Int) (o : ObjectInfo), s.objectData.lookup id = some o →
        1 ≤ o.width → 1 ≤ o.height →
        o.x ≤ px → px ≤ o.x + o.width - 1 → o.y ≤ py → py ≤ o.y + o.height - 1 →
        id ∈ getObjectsAt s px py) ∧
      getObjectsAt (addObject (new 100) 1 50 50 10 10) 55 55 = {1} := by
  refine ⟨getObjectsAt_eq s px py, ?_, ?_, ?_, by decide⟩
  · intro hnone
    rw [getObjectsAt_eq, idsAt, hnone]
    rfl
  · intro id
    rw [getObjectsAt_eq]
    exact hm id _
  · intro hc id o ho _ _ h1 h2 h3 h4
    rw [getObjectsAt_eq]
    exact (hm id _).2 ⟨o, ho, inCoveredRange_of_point _ hc _ _ _ _ px py h1 h2 h3 h4⟩

/-- Witness of C7: the scenario state and the point `(55, 55)`, which lies in
the rectangle of object 1. -/
theorem C7_getObjectsAt_cell_witness :
    Membership (addObject (new 100) 1 50 50 10 10) ∧
      (0 : Int) < (addObject (new 100) 1 50 50 10 10).cellSize ∧
      (addObject (new 100) 1 50 50 10 10).objectData.lookup 1 = some ⟨50, 50, 10, 10⟩ ∧
      1 ∈ getObjectsAt (addObject (new 100) 1 50 50 10 10) 55 55 :=
  ⟨(Membership.membership_new 100).membership_addObject 1 50 50 10 10 (by decide), by decide, by decide,
    (C7_getObjectsAt_cell (addObject (new 100) 1 50 50 10 10)
      ((Membership.membership_new 100).membership_addObject 1 50 50 10 10 (by decide)) 55 55).2.2.2.1
      (by decide) 1 ⟨50, 50, 10, 10⟩ (by decide) (by decide) (by decide)
      (by decide) (by decide) (by decide) (by decide)⟩

end SpatialGrid

namespace SpatialGrid

/-! ## Radius queries -/

theorem mem_refineCell (s : SpatialGrid) (test : ObjectInfo → Bool) (ids : Finset Int)
    (id : Int) :
    id ∈ refineCell s test ids ↔
      id ∈ ids ∧ ∃ o, s.objectData.lookup id = some o ∧ test o = true := by
  unfold refineCell
  rw [Finset.mem_filter]
  cases s.objectData.lookup id with
  | none => simp
  | some o => simp

theorem mem_getObjectsInRadius_square (s : SpatialGrid) (cx cy r id : Int) :
    id ∈ (getObjectsInRadius s cx cy r .PRECISION_SQUARE).1 ↔
      ∃ c, inRadiusRange s.cellSize cx cy r c ∧ id ∈ idsAt s.grid c := by
  unfold getObjectsInRadius
  dsimp only
  rw [mem_foldl_cells s.grid (fun ids => ids)]
  simp only [Finset.not_mem_empty, false_or, mem_cellLoop, mem_idsAt_iff]
  rfl

theorem mem_getObjectsInRadius_center (s : SpatialGrid) (cx cy r id : Int) :
    id ∈ (getObjectsInRadius s cx cy r .PRECISION_CENTER).1 ↔
      ∃ c, inRadiusRange s.cellSize cx cy r c ∧ id ∈ idsAt s.grid c ∧
        ∃ o, s.objectData.lookup id = some o ∧ centerInCircle o cx cy r = true := by
  unfold getObjectsInRadius
  dsimp only
  rw [mem_foldl_cells s.grid (refineCell s (fun o => centerInCircle o cx cy r))]
  simp only [Finset.not_mem_empty, false_or, mem_cellLoop, mem_idsAt_iff, mem_refineCell]
  constructor
  · rintro ⟨c, hc, ids, h1, h2, h3⟩
    exact ⟨c, hc, ⟨ids, h1, h2⟩, h3⟩
  · rintro ⟨c, hc, ⟨ids, h1, h2⟩, h3⟩
    exact ⟨c, hc, ids, h1, h2, h3⟩

theorem mem_getObjectsInRadius_bounds (s : SpatialGrid) (cx cy r id : Int) :
    id ∈ (getObjectsInRadius s cx cy r .PRECISION_BOUNDS).1 ↔
      ∃ c, inRadiusRange s.cellSize cx cy r c ∧ id ∈ idsAt s.grid c ∧
        ∃ o, s.objectData.lookup id = some o ∧
          rectangleIntersectsCircle o.x o.y o.width o.height cx cy r = true := by
  unfold getObjectsInRadius
  dsimp only
  rw [mem_foldl_cells s.grid
    (refineCell s (fun o => rectangleIntersectsCircle o.x o.y o.width o.height cx cy r))]
  simp only [Finset.not_mem_empty, false_or, mem_cellLoop, mem_idsAt_iff, mem_refineCell]
  constructor
  · rintro ⟨c, hc, ids, h1, h2, h3⟩
    exact ⟨c, hc, ⟨ids, h1, h2⟩, h3⟩
  · rintro ⟨c, hc, ⟨ids, h1, h2⟩, h3⟩
    exact ⟨c, hc, ids, h1, h2, h3⟩

/-- A point within squared distance `r * r` of the center lies in the bounding
square of the circle. -/
theorem abs_le_of_sq_sum_le (dx dy r : Int) (hr : 0 ≤ r) (h : dx * dx + dy * dy ≤ r * r) :
    -r ≤ dx ∧ dx ≤ r := by
  constructor
  · by_contra hlt
    push_neg at hlt
    nlinarith [mul_self_nonneg dy]
  · by_contra hlt
    push_neg at hlt
    nlinarith [mul_self_nonneg dy]

/-- Truncating halving of a positive dimension stays inside the dimension. -/
theorem tdiv_two_bounds (w : Int) (hw : 1 ≤ w) : 0 ≤ w.tdiv 2 ∧ w.tdiv 2 ≤ w - 1 := by
  rw [Int.tdiv_eq_ediv (by omega) (by decide)]
  omega

end SpatialGrid

namespace SpatialGrid

/-! ## Claims C8 - C10 -/

/-- C8, refuted as stated: the claim does not require a positive cell size. On
an index constructed with cell size -100 the only object 1 = `(50, 50, 200, 10)`
has the column range `floorDiv 50 = 0 .. floorDiv 249 = 249 / -100 = -2`, which
is empty, so it is registered in no cell; the membership invariant holds, the
object has width and height at least 1, its center `(150, 55)` is at distance 0
from the query center `(150, 55)`, and `getObjectsInRadius(150, 55, 0, CENTER)`
does not return the id. -/
theorem C8_negative_cell_size_missed :
    Membership (addObject (new (-100)) 1 50 50 200 10) ∧
      (∀ (id : Int) (o : ObjectInfo),
        (addObject (new (-100)) 1 50 50 200 10).objectData.lookup id = some o →
        1 ≤ o.width ∧ 1 ≤ o.height) ∧
      (0 : Int) ≤ 0 ∧
      (∃ o, (addObject (new (-100)) 1 50 50 200 10).objectData.lookup 1 = some o ∧
        (o.x + o.width.tdiv 2 - 150) ^ 2 + (o.y + o.height.tdiv 2 - 55) ^ 2 ≤ (0 : Int) ^ 2) ∧
      1 ∉ (getObjectsInRadius (addObject (new (-100)) 1 50 50 200 10) 150 55 0
        .PRECISION_CENTER).1 :=
  ⟨(Membership.membership_new (-100)).membership_addObject 1 50 50 200 10 (by decide),
    (by
      intro id o ho
      rw [addObject_objectData, lookup_objectData_insert] at ho
      split_ifs at ho with h1
      · cases Option.some.inj ho
        decide
      · exact Option.noConfusion ((Finmap.lookup_empty id).symm.trans ho)),
    by decide, ⟨⟨50, 50, 200, 10⟩, by decide, by decide⟩, by decide⟩

/-- C8, amended (CENTER mode is exact for positive-size objects). In a state with the
membership invariant and a positive cell size in which every tracked object has
width and height at least 1, for every center and every radius `r ≥ 0` the
result of `getObjectsInRadius(cx, cy, r, CENTER)` is, as a set, the set of
tracked ids whose center point `(x + width/2, y + height/2)` (truncating
halving) satisfies `(centerX - cx)^2 + (centerY - cy)^2 ≤ r^2`. -/
theorem C8_center_mode_exact (s : SpatialGrid) (hc : 0 < s.cellSize) (hm : Membership s)
    (hpos : ∀ (id : Int) (o : ObjectInfo), s.objectData.lookup id = some o →
      1 ≤ o.width ∧ 1 ≤ o.height)
    (cx cy r : Int) (hr : 0 ≤ r) (id : Int) :
    id ∈ (getObjectsInRadius s cx cy r .PRECISION_CENTER).1 ↔
      ∃ o, s.objectData.lookup id = some o ∧
        (o.x + o.width.tdiv 2 - cx) ^ 2 + (o.y + o.height.tdiv 2 - cy) ^ 2 ≤ r ^ 2 := by
  rw [mem_getObjectsInRadius_center]
  constructor
  · rintro ⟨c, _, _, o, ho, htest⟩
    refine ⟨o, ho, ?_⟩
    have h := of_decide_eq_true htest
    simp only [pow_two]
    exact h
  · rintro ⟨o, ho, hdist⟩
    have hdist' : (o.x + o.width.tdiv 2 - cx) * (o.x + o.width.tdiv 2 - cx) +
        (o.y + o.height.tdiv 2 - cy) * (o.y + o.height.tdiv 2 - cy) ≤ r * r := by
      simpa only [pow_two] using hdist
    obtain ⟨hw, hh⟩ := hpos id o ho
    obtain ⟨hw1, hw2⟩ := tdiv_two_bounds o.width hw
    obtain ⟨hh1, hh2⟩ := tdiv_two_bounds o.height hh
    obtain ⟨hx1, hx2⟩ := abs_le_of_sq_sum_le _ _ r hr hdist'
    have hdist'' : (o.y + o.height.tdiv 2 - cy) * (o.y + o.height.tdiv 2 - cy) +
        (o.x + o.width.tdiv 2 - cx) * (o.x + o.width.tdiv 2 - cx) ≤ r * r := by
      rw [add_comm]
      exact hdist'
    obtain ⟨hy1, hy2⟩ := abs_le_of_sq_sum_le _ _ r hr hdist''
    refine ⟨⟨floorDiv (o.x + o.width.tdiv 2) s.cellSize,
      floorDiv (o.y + o.height.tdiv 2) s.cellSize⟩, ?_, ?_, o, ho, decide_eq_true hdist'⟩
    · exact ⟨floorDiv_mono _ hc (by omega), floorDiv_mono _ hc (by omega),
        floorDiv_mono _ hc (by omega), floorDiv_mono _ hc (by omega)⟩
    · exact (hm id _).2 ⟨o, ho, inCoveredRange_of_point _ hc _ _ _ _ _ _
        (by omega) (by omega) (by omega) (by omega)⟩

/-- Witness of C8: objects 1 = `(0, 0, 10, 10)` (center `(5, 5)`) and
2 = `(500, 500, 10, 10)` on cell size 100, center `(0, 0)`, radius 8. -/
theorem C8_center_mode_exact_witness :
    (0 : Int) < (addObject (addObject (new 100) 1 0 0 10 10) 2 500 500 10 10).cellSize ∧
      Membership (addObject (addObject (new 100) 1 0 0 10 10) 2 500 500 10 10) ∧
      (1 ∈ (getObjectsInRadius (addObject (addObject (new 100) 1 0 0 10 10) 2 500 500 10 10)
          0 0 8 .PRECISION_CENTER).1 ↔
        ∃ o, (addObject (addObject (new 100) 1 0 0 10 10) 2 500 500 10 10).objectData.lookup 1 =
            some o ∧
          (o.x + o.width.tdiv 2 - 0) ^ 2 + (o.y + o.height.tdiv 2 - 0) ^ 2 ≤ (8 : Int) ^ 2) :=
  ⟨by decide,
    ((Membership.membership_new 100).membership_addObject 1 0 0 10 10 (by decide)).membership_addObject 2 500 500 10 10
      (by decide),
    C8_center_mode_exact (addObject (addObject (new 100) 1 0 0 10 10) 2 500 500 10 10)
      (by decide)
      (((Membership.membership_new 100).membership_addObject 1 0 0 10 10 (by decide)).membership_addObject 2 500 500 10 10
        (by decide))
      (by
        intro id o ho
        rw [addObject_objectData, addObject_objectData, lookup_objectData_insert,
          lookup_objectData_insert] at ho
        split_ifs at ho with h2 h1
        · cases Option.some.inj ho
          decide
        · cases Option.some.inj ho
          decide
        · exact Option.noConfusion ((Finmap.lookup_empty id).symm.trans ho))
      0 0 8 (by decide) 1⟩

/-- C9 (monotonic refinement). For every index state, center and radius, the
result of `getObjectsInRadius` with `BOUNDS` is a subset of the result with
`SQUARE`, and the result with `CENTER` is a subset of the result with `SQUARE`. -/
theorem C9_refined_modes_subset_square (s : SpatialGrid) (cx cy r : Int) :
    (getObjectsInRadius s cx cy r .PRECISION_BOUNDS).1 ⊆
        (getObjectsInRadius s cx cy r .PRECISION_SQUARE).1 ∧
      (getObjectsInRadius s cx cy r .PRECISION_CENTER).1 ⊆
        (getObjectsInRadius s cx cy r .PRECISION_SQUARE).1 := by
  constructor
  · intro id hid
    rw [mem_getObjectsInRadius_bounds] at hid
    rw [mem_getObjectsInRadius_square]
    obtain ⟨c, hc, hmem, _⟩ := hid
    exact ⟨c, hc, hmem⟩
  · intro id hid
    rw [mem_getObjectsInRadius_center] at hid
    rw [mem_getObjectsInRadius_square]
    obtain ⟨c, hc, hmem, _⟩ := hid
    exact ⟨c, hc, hmem⟩

/-- C10, refuted as stated: with cell size 100 and the single object
1 = `(0, 0, 10, 10)`, the query with center `(0, 0)` and radius 5 returns `{1}`
in `BOUNDS` mode (the corner `(0, 0)` of the rectangle is the circle center) and
nothing in `CENTER` mode (the object center `(5, 5)` is at squared distance 50),
so the `BOUNDS` result is not a subset of the `CENTER` result. -/
theorem C10_bounds_not_subset_center :
    ¬ ((getObjectsInRadius (addObject (new 100) 1 0 0 10 10) 0 0 5 .PRECISION_BOUNDS).1 ⊆
          (getObjectsInRadius (addObject (new 100) 1 0 0 10 10) 0 0 5 .PRECISION_CENTER).1 ∧
        (getObjectsInRadius (addObject (new 100) 1 0 0 10 10) 0 0 5 .PRECISION_CENTER).1 ⊆
          (getObjectsInRadius (addObject (new 100) 1 0 0 10 10) 0 0 5 .PRECISION_SQUARE).1) := by
  decide

/-- C10, amended: for every index state, center and radius, every id returned
in `CENTER` mode or in `BOUNDS` mode is returned in `SQUARE` mode; no inclusion
between the `BOUNDS` and the `CENTER` result is asserted. -/
theorem C10_center_and_bounds_within_square (s : SpatialGrid) (cx cy r : Int) :
    (getObjectsInRadius s cx cy r .PRECISION_CENTER).1 ∪
        (getObjectsInRadius s cx cy r .PRECISION_BOUNDS).1 ⊆
      (getObjectsInRadius s cx cy r .PRECISION_SQUARE).1 := by
  intro id hid
  rw [Finset.mem_union, mem_getObjectsInRadius_center, mem_getObjectsInRadius_bounds] at hid
  rw [mem_getObjectsInRadius_square]
  rcases hid with ⟨c, hc, hmem, _⟩ | ⟨c, hc, hmem, _⟩
  · exact ⟨c, hc, hmem⟩
  · exact ⟨c, hc, hmem⟩

end SpatialGrid

namespace SpatialGrid

/-! ## Claims C11 - C12 -/

/-- C11, refuted as stated: on a fresh index with cell size 100, after
`addObject(1, 0,0,10,10)` and `addObject(2, 500,500,10,10)`, the query
`getObjectsInRadius(0, 0, 5, CENTER)` does not return `[1]`: the center of
object 1 is `(5, 5)`, at squared distance 50 from `(0, 0)`, above `5 * 5`. -/
theorem C11_center_radius5_not_object1 :
    ¬ ((getObjectsInRadius (addObject (addObject (new 100) 1 0 0 10 10) 2 500 500 10 10)
          0 0 5 .PRECISION_CENTER).1 = {1} ∧
        (getObjectsInRadius (addObject (addObject (new 100) 1 0 0 10 10) 2 500 500 10 10)
          0 0 1000 .PRECISION_SQUARE).1 = {1, 2}) :=
  fun h => absurd h.1 (by decide)

end SpatialGrid

namespace SpatialGrid

/-- C11, amended: on a fresh index with cell size 100, after
`addObject(1, 0,0,10,10)` and `addObject(2, 500,500,10,10)`,
`getObjectsInRadius(0, 0, 5, CENTER)` returns no id, and
`getObjectsInRadius(0, 0, 1000, SQUARE)` returns exactly the ids 1 and 2. -/
theorem C11_radius_scenario :
    (getObjectsInRadius (addObject (addObject (new 100) 1 0 0 10 10) 2 500 500 10 10)
        0 0 5 .PRECISION_CENTER).1 = ∅ ∧
      (getObjectsInRadius (addObject (addObject (new 100) 1 0 0 10 10) 2 500 500 10 10)
        0 0 1000 .PRECISION_SQUARE).1 = {1, 2} := by
  constructor
  · decide
  · decide

end SpatialGrid

namespace SpatialGrid

/-- C12 (batch length check). `updateObjectsBatch(ids, xs, ys, widths, heights)`
returns -1 if and only if the five arrays do not all have the length of `ids`,
and then the whole state (grid, Object Table, statistics cache) is the one
before the call; otherwise it returns 0; three ids with two xs return -1 and
change nothing. -/
theorem C12_batch_length_mismatch (s : SpatialGrid) (ids xs ys widths heights : List Int) :
    ((updateObjectsBatch s ids xs ys widths heights).1 = -1 ↔
        ¬ (xs.length = ids.length ∧ ys.length = ids.length ∧
          widths.length = ids.length ∧ heights.length = ids.length)) ∧
      ((updateObjectsBatch s ids xs ys widths heights).1 = -1 →
        (updateObjectsBatch s ids xs ys widths heights).2 = s) ∧
      ((updateObjectsBatch s ids xs ys widths heights).1 ≠ -1 →
        (updateObjectsBatch s ids xs ys widths heights).1 = 0) ∧
      (updateObjectsBatch (addObject (new 100) 1 50 50 10 10)
          [1, 2, 3] [0, 0] [0, 0, 0] [1, 1, 1] [1, 1, 1]) =
        (-1, addObject (new 100) 1 50 50 10 10) := by
  refine ⟨?_, ?_, ?_, by decide⟩
  · unfold updateObjectsBatch
    dsimp only
    split_ifs with hlen
    · simp only [true_iff]
      tauto
    · constructor
      · intro h
        exact absurd h (by decide)
      · intro h
        exfalso
        apply h
        refine ⟨?_, ?_, ?_, ?_⟩ <;> by_contra hne <;> exact hlen (by tauto)
  · unfold updateObjectsBatch
    dsimp only
    split_ifs with hlen
    · intro _
      rfl
    · intro h
      exact absurd h (by decide)
  · unfold updateObjectsBatch
    dsimp only
    split_ifs with hlen
    · intro h
      exact absurd rfl h
    · intro _
      rfl

/-- Witness of C12: three ids with two xs on the scenario state. -/
theorem C12_batch_length_mismatch_witness :
    (updateObjectsBatch (addObject (new 100) 1 50 50 10 10)
        [1, 2, 3] [0, 0] [0, 0, 0] [1, 1, 1] [1, 1, 1]).1 = -1 ∧
      (updateObjectsBatch (addObject (new 100) 1 50 50 10 10)
        [1, 2, 3] [0, 0] [0, 0, 0] [1, 1, 1] [1, 1, 1]).2 =
        addObject (new 100) 1 50 50 10 10 :=
  ⟨by decide,
    (C12_batch_length_mismatch (addObject (new 100) 1 50 50 10 10)
      [1, 2, 3] [0, 0] [0, 0, 0] [1, 1, 1] [1, 1, 1]).2.1 (by decide)⟩

/-! ## Claim C13: update within the same footprint -/

/-- After `updateObject(id, R)` the Object Table entry of `id` is `R`. -/
theorem lookup_updateObject_self (s : SpatialGrid) (id x y w h : Int) :
    (updateObject s id x y w h).objectData.lookup id = some ⟨x, y, w, h⟩ := by
  unfold updateObject
  cases hl : s.objectData.lookup id with
  | none => exact Finmap.lookup_insert _
  | some info =>
    simp only
    split_ifs with h1
    · obtain ⟨e1, e2, e3, e4⟩ := h1
      rw [hl]
      cases info
      simp only at e1 e2 e3 e4
      subst e1 e2 e3 e4
      rfl
    · exact Finmap.lookup_insert _
    · exact Finmap.lookup_insert _

/-- Calling `updateObject` with the rectangle already on file changes nothing. -/
theorem updateObject_same_rect (s : SpatialGrid) (id x y w h : Int)
    (hl : s.objectData.lookup id = some ⟨x, y, w, h⟩) : updateObject s id x y w h = s := by
  unfold updateObject
  rw [hl]
  simp

/-- C13 (same-footprint update). For an id with an Object Table entry, when the
new rectangle has the same covered-cell range bounds (startX, startY, endX,
endY) as the stored one, `updateObject` leaves the grid and the statistics
cache (dirty flag included) unchanged, leaves every other Object Table entry
unchanged and sets the entry of the id to the new rectangle; a second
`updateObject(id, R)` with the same `R` leaves the whole state identical, so it
does not mark the cache dirty. -/
theorem C13_same_footprint_update (s : SpatialGrid) (id : Int) (info : ObjectInfo)
    (hl : s.objectData.lookup id = some info) (x y w h : Int)
    (hsx : floorDiv info.x s.cellSize = floorDiv x s.cellSize)
    (hsy : floorDiv info.y s.cellSize = floorDiv y s.cellSize)
    (hex : floorDiv (info.x + info.width - 1) s.cellSize = floorDiv (x + w - 1) s.cellSize)
    (hey : floorDiv (info.y + info.height - 1) s.cellSize =
      floorDiv (y + h - 1) s.cellSize) :
    (updateObject s id x y w h).grid = s.grid ∧
      (updateObject s id x y w h).cachedStats = s.cachedStats ∧
      (∀ id' : Int, id' ≠ id →
        (updateObject s id x y w h).objectData.lookup id' = s.objectData.lookup id') ∧
      (updateObject s id x y w h).objectData.lookup id = some ⟨x, y, w, h⟩ ∧
      updateObject (updateObject s id x y w h) id x y w h = updateObject s id x y w h := by
  refine ⟨?_, ?_, ?_, lookup_updateObject_self s id x y w h,
    updateObject_same_rect _ id x y w h (lookup_updateObject_self s id x y w h)⟩
  · unfold updateObject
    rw [hl]
    simp only
    split_ifs with h1 h2
    · rfl
    · exact absurd h2 (by simp [hsx, hsy, hex, hey])
    · rfl
  · unfold updateObject
    rw [hl]
    simp only
    split_ifs with h1 h2
    · rfl
    · exact absurd h2 (by simp [hsx, hsy, hex, hey])
    · rfl
  · intro id' hne
    unfold updateObject
    rw [hl]
    simp only
    split_ifs with h1 h2
    · rfl
    · exact absurd h2 (by simp [hsx, hsy, hex, hey])
    · exact Finmap.lookup_insert_of_ne _ hne

/-- Witness of C13: object 1 = `(50, 50, 10, 10)` on cell size 100, after a
statistics read (cache not dirty), moves to `(60, 70, 20, 5)` inside cell (0, 0). -/
theorem C13_same_footprint_update_witness :
    (getMaxObjectsPerCell (addObject (new 100) 1 50 50 10 10)).2.objectData.lookup 1 =
        some ⟨50, 50, 10, 10⟩ ∧
      (getMaxObjectsPerCell (addObject (new 100) 1 50 50 10 10)).2.cachedStats.dirty = false ∧
      (updateObject (getMaxObjectsPerCell (addObject (new 100) 1 50 50 10 10)).2
        1 60 70 20 5).cachedStats =
        (getMaxObjectsPerCell (addObject (new 100) 1 50 50 10 10)).2.cachedStats :=
  ⟨by decide, by decide,
    (C13_same_footprint_update (getMaxObjectsPerCell (addObject (new 100) 1 50 50 10 10)).2
      1 ⟨50, 50, 10, 10⟩ (by decide) 60 70 20 5 (by decide) (by decide) (by decide)
      (by decide)).2.1⟩

end SpatialGrid

namespace SpatialGrid

/-! ## Claim C14: clear -/

/-- C14, refuted as stated: after `clear()` the dirty flag of the statistics
cache is not cleared; `CachedStats()` has `dirty = true`. Shown on the state
reached by `addObject(1, 50,50,10,10)` and a statistics read. -/
theorem C14_clear_leaves_cache_dirty :
    ¬ ((clear (getMaxObjectsPerCell (addObject (new 100) 1 50 50 10 10)).2).grid = ∅ ∧
        (clear (getMaxObjectsPerCell (addObject (new 100) 1 50 50 10 10)).2).objectData = ∅ ∧
        (clear (getMaxObjectsPerCell (addObject (new 100) 1 50 50 10 10)).2).cachedStats.dirty
          = false ∧
        (clear (getMaxObjectsPerCell
          (addObject (new 100) 1 50 50 10 10)).2).cachedStats.avgObjectsPerCell = 5) :=
  fun h => absurd h.2.2.1 (by decide)

/-- C14, amended: for every state, after `clear()` the grid and the Object
Table are empty (`getCellCount() = 0`, `getObjectCount() = 0`) and the
statistics cache holds its default values: average 5, total 0, maximum 0 and
the dirty flag set; the next `getAverageObjectsPerCell()` returns 5 and leaves
the flag cleared. -/
theorem C14_clear_resets (s : SpatialGrid) :
    (clear s).grid = ∅ ∧ (clear s).objectData = ∅ ∧
      getCellCount (clear s) = 0 ∧ getObjectCount (clear s) = 0 ∧
      (clear s).cachedStats = CachedStats.init ∧
      (clear s).cachedStats.avgObjectsPerCell = 5 ∧
      (clear s).cachedStats.totalObjectReferences = 0 ∧
      (clear s).cachedStats.maxObjectsPerCell = 0 ∧
      (clear s).cachedStats.dirty = true ∧
      (getAverageObjectsPerCell (clear s)).1 = 5 ∧
      (getAverageObjectsPerCell (clear s)).2.cachedStats.dirty = false := by
  refine ⟨rfl, rfl, rfl, rfl, rfl, rfl, rfl, rfl, rfl, ?_, ?_⟩
  · simp [getAverageObjectsPerCell, clear, CachedStats.init, updateCachedStats]
  · simp [getAverageObjectsPerCell, clear, CachedStats.init, updateCachedStats]

/-! ## Claim C15: non-positive dimensions -/

/-- For a positive cell size the end cell of a range is the start cell exactly
when the offset of the coordinate inside its cell plus the dimension is at
least 1. -/
theorem floorDiv_end_eq_start_iff (b coord dim : Int) (hb : 0 < b) (hd : dim ≤ 0) :
    floorDiv (coord + dim - 1) b ≤ floorDiv coord b ∧
      (floorDiv (coord + dim - 1) b = floorDiv coord b ↔ 1 ≤ coord % b + dim) := by
  have hle : floorDiv (coord + dim - 1) b ≤ floorDiv coord b :=
    floorDiv_mono b hb (by omega)
  refine ⟨hle, ?_⟩
  rw [floorDiv_eq_ediv _ b hb, floorDiv_eq_ediv _ b hb] at hle ⊢
  have hdecomp : b * (coord / b) + coord % b = coord := Int.ediv_add_emod coord b
  constructor
  · intro heq
    have h1 : (coord + dim - 1) / b * b ≤ coord + dim - 1 :=
      Int.ediv_mul_le _ (ne_of_gt hb)
    rw [heq] at h1
    nlinarith
  · intro h1
    apply le_antisymm hle
    apply (Int.le_ediv_iff_mul_le hb).2
    nlinarith

end SpatialGrid

namespace SpatialGrid

/-- C15, refuted as stated: with cell size 100, coordinate 0 and dimension 0
the end cell `floorDiv (0 + 0 - 1) 100 = -1` lies before the start cell
`floorDiv 0 100 = 0`, so the covered range is empty, and `addObject(1, 0,0,0,0)`
registers the object in no cell. -/
theorem C15_zero_dim_range_empty :
    ¬ (floorDiv 0 100 ≤ floorDiv (0 + 0 - 1) 100 ∧
        floorDiv (0 + 0 - 1) 100 = floorDiv 0 100 ∧
        1 ≤ getCellCount (addObject (new 100) 1 0 0 0 0)) :=
  fun h => absurd h.1 (by decide)

/-- C15, amended: for every positive cell size, every coordinate and every
dimension at most 0, the end cell `floorDiv (coord + dim - 1)` is never after
the start cell `floorDiv coord`, and it is the start cell (the range is the
single starting cell) exactly when `coord mod cellSize + dim ≥ 1`, which for
`dim = 0` means that the coordinate is not a multiple of the cell size;
otherwise the range is empty. With cell size 100, `addObject(1, 50,50,0,0)` is
registered in the one cell (0, 0) and `addObject(1, 0,0,0,0)` in no cell. -/
theorem C15_nonpositive_dim_range (cellSize coord dim : Int) (hc : 0 < cellSize)
    (hd : dim ≤ 0) :
    floorDiv (coord + dim - 1) cellSize ≤ floorDiv coord cellSize ∧
      (floorDiv (coord + dim - 1) cellSize = floorDiv coord cellSize ↔
        1 ≤ coord % cellSize + dim) ∧
      (dim = 0 →
        (floorDiv (coord + dim - 1) cellSize = floorDiv coord cellSize ↔
          ¬ cellSize ∣ coord)) ∧
      (addObject (new 100) 1 50 50 0 0).grid = Finmap.singleton ⟨0, 0⟩ {1} ∧
      (addObject (new 100) 1 0 0 0 0).grid = ∅ := by
  obtain ⟨hle, hiff⟩ := floorDiv_end_eq_start_iff cellSize coord dim hc hd
  refine ⟨hle, hiff, ?_, by decide, by decide⟩
  intro h0
  rw [hiff, h0, Int.dvd_iff_emod_eq_zero]
  have hnn : 0 ≤ coord % cellSize := Int.emod_nonneg coord (ne_of_gt hc)
  omega

/-- Witness of C15 (amended) at cell size 100, coordinate 200, dimension 0. -/
theorem C15_nonpositive_dim_range_witness :
    (0 : Int) < 100 ∧ (0 : Int) ≤ 0 ∧
      floorDiv (200 + 0 - 1) 100 ≤ floorDiv 200 100 ∧
      (floorDiv (200 + 0 - 1) 100 = floorDiv 200 100 ↔ 1 ≤ (200 : Int) % 100 + 0) :=
  ⟨by decide, by decide,
    (C15_nonpositive_dim_range 100 200 0 (by decide) (by decide)).1,
    (C15_nonpositive_dim_range 100 200 0 (by decide) (by decide)).2.1⟩

/-! ## Claim C16: the statistics cache -/

theorem updateCachedStats_grid (s : SpatialGrid) : (updateCachedStats s).grid = s.grid := by
  unfold updateCachedStats
  split_ifs <;> rfl

/-- State after the lazy refresh that opens `estimateCapacity` and the two
statistics getters: the cache is not dirty and holds the recomputed values,
provided a non-dirty cache was not stale. -/
theorem refresh_stats (s : SpatialGrid) (hs : StatsFresh s) :
    (if s.cachedStats.dirty then updateCachedStats s else s).grid = s.grid ∧
      (if s.cachedStats.dirty then updateCachedStats s else s).cachedStats.dirty = false ∧
      (if s.cachedStats.dirty then
          updateCachedStats s else s).cachedStats.totalObjectReferences =
        totalReferences s.grid ∧
      (if s.cachedStats.dirty then updateCachedStats s else s).cachedStats.maxObjectsPerCell =
        maxReferences s.grid ∧
      (if s.cachedStats.dirty then updateCachedStats s else s).cachedStats.avgObjectsPerCell =
        averageReferences s.grid := by
  split_ifs with hd
  · unfold updateCachedStats
    rw [if_neg (by rw [hd]; decide)]
    exact ⟨rfl, rfl, rfl, rfl, rfl⟩
  · have hd' : s.cachedStats.dirty = false := by simpa using hd
    obtain ⟨h1, h2, h3⟩ := hs hd'
    exact ⟨rfl, hd', h1, h2, h3⟩

theorem statsFresh_refresh (s : SpatialGrid) (hs : StatsFresh s) :
    StatsFresh (if s.cachedStats.dirty then updateCachedStats s else s) := by
  obtain ⟨hg, _, h1, h2, h3⟩ := refresh_stats s hs
  intro _
  rw [hg]
  exact ⟨h1, h2, h3⟩

theorem statsFresh_of_dirty (s : SpatialGrid) (hd : s.cachedStats.dirty = true) :
    StatsFresh s := by
  intro h
  rw [hd] at h
  exact Bool.noConfusion h

theorem statsFresh_updateObject (s : SpatialGrid) (hs : StatsFresh s) (id x y w h : Int) :
    StatsFresh (updateObject s id x y w h) := by
  unfold updateObject
  cases hl : s.objectData.lookup id with
  | none => exact statsFresh_of_dirty _ rfl
  | some info =>
    simp only
    split_ifs with h1 h2
    · exact hs
    · exact statsFresh_of_dirty _ rfl
    · exact hs

theorem statsFresh_step (s : SpatialGrid) (hs : StatsFresh s) (op : Op) :
    StatsFresh (step s op) := by
  cases op with
  | add id x y w h => exact statsFresh_of_dirty _ rfl
  | remove id =>
    show StatsFresh (removeObject s id)
    unfold removeObject
    cases hl : s.objectData.lookup id with
    | none => exact hs
    | some info => exact statsFresh_of_dirty _ rfl
  | update id x y w h => exact statsFresh_updateObject s hs id x y w h
  | batch ids xs ys ws hs' =>
    exact updateObjectsBatch_preserves StatsFresh
      (fun t id x y w h ht => statsFresh_updateObject t ht id x y w h) s hs ids xs ys ws hs'
  | clear => exact statsFresh_of_dirty _ rfl

theorem statsFresh_stepCall (s : SpatialGrid) (hs : StatsFresh s) (call : Call) :
    StatsFresh (stepCall s call) := by
  cases call with
  | mutate op => exact statsFresh_step s hs op
  | objectsAt x y => exact hs
  | objectsInRect x y w h => exact statsFresh_refresh s hs
  | objectsInRadius cx cy r p => exact statsFresh_refresh s hs
  | maxObjectsPerCell => exact statsFresh_refresh s hs
  | averageObjectsPerCell => exact statsFresh_refresh s hs

theorem statsFresh_runCalls (s : SpatialGrid) (hs : StatsFresh s) (calls : List Call) :
    StatsFresh (runCalls s calls) := by
  unfold runCalls
  induction calls generalizing s with
  | nil => exact hs
  | cons call calls ih =>
    rw [List.foldl_cons]
    exact ih _ (statsFresh_stepCall s hs call)

/-- C16 (the statistics cache is never observed stale). In every state reached
from construction by any sequence of `addObject`, `removeObject`,
`updateObject`, `updateObjectsBatch`, `clear` and queries,
`getMaxObjectsPerCell()` returns the largest id-set size over all grid cells
(0 for the empty grid) and `getAverageObjectsPerCell()` returns the sum of the
id-set sizes divided by the number of cells, or 5 for the empty grid; and
whenever the dirty flag is false the cached total, maximum and average are the
values recomputed from the current grid. -/
theorem C16_stats_never_stale (cellSize : Int) (calls : List Call) :
    (getMaxObjectsPerCell (runCalls (new cellSize) calls)).1 =
        (runCalls (new cellSize) calls).grid.keys.sup
          (fun c => (idsAt (runCalls (new cellSize) calls).grid c).card) ∧
      (getAverageObjectsPerCell (runCalls (new cellSize) calls)).1 =
        (if (runCalls (new cellSize) calls).grid.keys = ∅ then 5
          else (((runCalls (new cellSize) calls).grid.keys.sum
              (fun c => (idsAt (runCalls (new cellSize) calls).grid c).card) : Nat) : ℚ) /
            ((runCalls (new cellSize) calls).grid.keys.card : ℚ)) ∧
      ((runCalls (new cellSize) calls).grid = ∅ →
        (getMaxObjectsPerCell (runCalls (new cellSize) calls)).1 = 0 ∧
          (getAverageObjectsPerCell (runCalls (new cellSize) calls)).1 = 5) ∧
      ((runCalls (new cellSize) calls).cachedStats.dirty = false →
        (runCalls (new cellSize) calls).cachedStats.totalObjectReferences =
            (runCalls (new cellSize) calls).grid.keys.sum
              (fun c => (idsAt (runCalls (new cellSize) calls).grid c).card) ∧
          (runCalls (new cellSize) calls).cachedStats.maxObjectsPerCell =
            (runCalls (new cellSize) calls).grid.keys.sup
              (fun c => (idsAt (runCalls (new cellSize) calls).grid c).card)) := by
  have hfresh : StatsFresh (runCalls (new cellSize) calls) :=
    statsFresh_runCalls _ (statsFresh_of_dirty _ rfl) calls
  obtain ⟨_, _, _, hmax, havg⟩ := refresh_stats _ hfresh
  have hmax' : (getMaxObjectsPerCell (runCalls (new cellSize) calls)).1 =
      maxReferences (runCalls (new cellSize) calls).grid := hmax
  have havg' : (getAverageObjectsPerCell (runCalls (new cellSize) calls)).1 =
      averageReferences (runCalls (new cellSize) calls).grid := havg
  refine ⟨hmax', havg', ?_, ?_⟩
  · intro hempty
    rw [hmax', havg', hempty]
    exact ⟨rfl, rfl⟩
  · intro hd
    obtain ⟨h1, h2, _⟩ := hfresh hd
    exact ⟨h1, h2⟩

end SpatialGrid

namespace SpatialGrid

/-- Witness-style instance of C16: a run with two objects sharing cell (0, 0)
and a range query in between reports a maximum occupancy of 2. -/
theorem C16_stats_never_stale_witness :
    (getMaxObjectsPerCell (runCalls (new 100)
        [Call.mutate (Op.add 1 50 50 10 10), Call.objectsInRect 0 0 200 200,
          Call.mutate (Op.add 2 60 60 100 10), Call.maxObjectsPerCell,
          Call.mutate (Op.update 2 61 60 100 10)])).1 =
        (runCalls (new 100)
          [Call.mutate (Op.add 1 50 50 10 10), Call.objectsInRect 0 0 200 200,
            Call.mutate (Op.add 2 60 60 100 10), Call.maxObjectsPerCell,
            Call.mutate (Op.update 2 61 60 100 10)]).grid.keys.sup
          (fun c => (idsAt (runCalls (new 100)
            [Call.mutate (Op.add 1 50 50 10 10), Call.objectsInRect 0 0 200 200,
              Call.mutate (Op.add 2 60 60 100 10), Call.maxObjectsPerCell,
              Call.mutate (Op.update 2 61 60 100 10)]).grid c).card) ∧
      (getMaxObjectsPerCell (runCalls (new 100)
        [Call.mutate (Op.add 1 50 50 10 10), Call.objectsInRect 0 0 200 200,
          Call.mutate (Op.add 2 60 60 100 10), Call.maxObjectsPerCell,
          Call.mutate (Op.update 2 61 60 100 10)])).1 = 2 :=
  ⟨(C16_stats_never_stale 100 _).1, by decide⟩

/-! ## Claim C17: the rectangle-versus-circle test -/

/-- The clamped coordinate lies in the interval when the interval is not empty. -/
theorem clamp_mem (rx rw cx : Int) (hw : 0 ≤ rw) :
    rx ≤ max rx (min cx (rx + rw)) ∧ max rx (min cx (rx + rw)) ≤ rx + rw := by
  constructor
  · exact le_max_left _ _
  · apply max_le
    · omega
    · exact min_le_right _ _

/-- The clamped coordinate is at least as close to `cx` as any integer of the
interval. -/
theorem clamp_sq_le (rx rw cx px : Int) (h1 : rx ≤ px) (h2 : px ≤ rx + rw) :
    (max rx (min cx (rx + rw)) - cx) * (max rx (min cx (rx + rw)) - cx) ≤
      (px - cx) * (px - cx) := by
  rcases le_total cx (rx + rw) with hc | hc
  · rw [min_eq_left hc]
    rcases le_total rx cx with hc2 | hc2
    · rw [max_eq_right hc2]
      nlinarith [mul_self_nonneg (px - cx)]
    · rw [max_eq_left hc2]
      nlinarith
  · rw [min_eq_right hc, max_eq_right (by omega)]
    nlinarith

/-- The clamped coordinate is at least as close to `cx` as any real number of
the interval. -/
theorem clamp_sq_le_real (rx rw cx : Int) (px : ℝ) (h1 : (rx : ℝ) ≤ px)
    (h2 : px ≤ (rx : ℝ) + (rw : ℝ)) :
    (((max rx (min cx (rx + rw)) - cx : Int) : ℝ)) *
        (((max rx (min cx (rx + rw)) - cx : Int) : ℝ)) ≤
      (px - (cx : ℝ)) * (px - (cx : ℝ)) := by
  rcases le_total cx (rx + rw) with hc | hc
  · rw [min_eq_left hc]
    rcases le_total rx cx with hc2 | hc2
    · rw [max_eq_right hc2]
      simp only [sub_self, Int.cast_zero, mul_zero]
      exact mul_self_nonneg _
    · rw [max_eq_left hc2]
      have hc2' : (cx : ℝ) ≤ (rx : ℝ) := by exact_mod_cast hc2
      push_cast
      nlinarith
  · have hrw : 0 ≤ rw := by
      have : (0 : ℝ) ≤ (rw : ℝ) := by linarith
      exact_mod_cast this
    rw [min_eq_right hc, max_eq_right (by omega)]
    have hc' : (rx : ℝ) + (rw : ℝ) ≤ (cx : ℝ) := by exact_mod_cast hc
    push_cast
    nlinarith

/-- An integer point of the rectangle inside the circle makes the test true. -/
theorem rectangleIntersectsCircle_of_point (rx ry rw rh cx cy radius px py : Int)
    (hx1 : rx ≤ px) (hx2 : px ≤ rx + rw) (hy1 : ry ≤ py) (hy2 : py ≤ ry + rh)
    (hd : (px - cx) * (px - cx) + (py - cy) * (py - cy) ≤ radius * radius) :
    rectangleIntersectsCircle rx ry rw rh cx cy radius = true := by
  unfold rectangleIntersectsCircle
  apply decide_eq_true
  have hx := clamp_sq_le rx rw cx px hx1 hx2
  have hy := clamp_sq_le ry rh cy py hy1 hy2
  linarith

/-- C17 (BOUNDS predicate). For `rw ≥ 0` and `rh ≥ 0`,
`rectangleIntersectsCircle(rx, ry, rw, rh, cx, cy, radius)` is true if and only
if some point `(px, py)` with `rx ≤ px ≤ rx+rw` and `ry ≤ py ≤ ry+rh` satisfies
`(px-cx)^2 + (py-cy)^2 ≤ radius^2`, for integer points and for real points
alike: the clamped point lies in the rectangle and no point of the rectangle is
closer to the circle center. -/
theorem C17_bounds_predicate_exact (rx ry rw rh cx cy radius : Int)
    (hw : 0 ≤ rw) (hh : 0 ≤ rh) :
    (rectangleIntersectsCircle rx ry rw rh cx cy radius = true ↔
        ∃ px py : Int, rx ≤ px ∧ px ≤ rx + rw ∧ ry ≤ py ∧ py ≤ ry + rh ∧
          (px - cx) ^ 2 + (py - cy) ^ 2 ≤ radius ^ 2) ∧
      (rectangleIntersectsCircle rx ry rw rh cx cy radius = true ↔
        ∃ px py : ℝ, (rx : ℝ) ≤ px ∧ px ≤ (rx : ℝ) + (rw : ℝ) ∧
          (ry : ℝ) ≤ py ∧ py ≤ (ry : ℝ) + (rh : ℝ) ∧
          (px - (cx : ℝ)) ^ 2 + (py - (cy : ℝ)) ^ 2 ≤ (radius : ℝ) ^ 2) ∧
      (∀ px py : Int, rx ≤ px → px ≤ rx + rw → ry ≤ py → py ≤ ry + rh →
        (max rx (min cx (rx + rw)) - cx) ^ 2 + (max ry (min cy (ry + rh)) - cy) ^ 2 ≤
          (px - cx) ^ 2 + (py - cy) ^ 2) := by
  have hclosed : rectangleIntersectsCircle rx ry rw rh cx cy radius = true ↔
      (max rx (min cx (rx + rw)) - cx) * (max rx (min cx (rx + rw)) - cx) +
        (max ry (min cy (ry + rh)) - cy) * (max ry (min cy (ry + rh)) - cy) ≤
          radius * radius := by
    unfold rectangleIntersectsCircle
    exact decide_eq_true_iff
  obtain ⟨hxa, hxb⟩ := clamp_mem rx rw cx hw
  obtain ⟨hya, hyb⟩ := clamp_mem ry rh cy hh
  refine ⟨?_, ?_, ?_⟩
  · constructor
    · intro ht
      refine ⟨max rx (min cx (rx + rw)), max ry (min cy (ry + rh)), hxa, hxb, hya, hyb, ?_⟩
      simp only [pow_two]
      exact hclosed.1 ht
    · rintro ⟨px, py, h1, h2, h3, h4, hd⟩
      simp only [pow_two] at hd
      exact rectangleIntersectsCircle_of_point rx ry rw rh cx cy radius px py h1 h2 h3 h4 hd
  · constructor
    · intro ht
      refine ⟨((max rx (min cx (rx + rw)) : Int) : ℝ), ((max ry (min cy (ry + rh)) : Int) : ℝ),
        by exact_mod_cast hxa, by exact_mod_cast hxb, by exact_mod_cast hya,
        by exact_mod_cast hyb, ?_⟩
      have := hclosed.1 ht
      have hcast : (((max rx (min cx (rx + rw)) - cx) * (max rx (min cx (rx + rw)) - cx) +
          (max ry (min cy (ry + rh)) - cy) * (max ry (min cy (ry + rh)) - cy) : Int) : ℝ) ≤
            ((radius * radius : Int) : ℝ) := by exact_mod_cast this
      simp only [pow_two]
      simpa using hcast
    · rintro ⟨px, py, h1, h2, h3, h4, hd⟩
      rw [hclosed]
      have hx := clamp_sq_le_real rx rw cx px h1 h2
      have hy := clamp_sq_le_real ry rh cy py h3 h4
      simp only [pow_two] at hd
      have hreal : (((max rx (min cx (rx + rw)) - cx) * (max rx (min cx (rx + rw)) - cx) +
          (max ry (min cy (ry + rh)) - cy) * (max ry (min cy (ry + rh)) - cy) : Int) : ℝ) ≤
            ((radius * radius : Int) : ℝ) := by
        push_cast
        push_cast at hx hy
        linarith
      exact_mod_cast hreal
  · intro px py h1 h2 h3 h4
    have hx := clamp_sq_le rx rw cx px h1 h2
    have hy := clamp_sq_le ry rh cy py h3 h4
    simp only [pow_two]
    linarith

/-- Witness of C17: the rectangle `(0, 0, 10, 10)` and the circle of radius 5
around `(-3, 14)`, whose closest point is the corner `(0, 10)`. -/
theorem C17_bounds_predicate_exact_witness :
    (0 : Int) ≤ 10 ∧
      (rectangleIntersectsCircle 0 0 10 10 (-3) 14 5 = true ↔
        ∃ px py : Int, 0 ≤ px ∧ px ≤ 0 + 10 ∧ 0 ≤ py ∧ py ≤ 0 + 10 ∧
          (px - (-3)) ^ 2 + (py - 14) ^ 2 ≤ (5 : Int) ^ 2) :=
  ⟨by decide, (C17_bounds_predicate_exact 0 0 10 10 (-3) 14 5 (by decide) (by decide)).1⟩

end SpatialGrid

namespace SpatialGrid

/-! ## Claim C18: updateObject against remove-then-add -/

/-- Unregistering an id from a list of cells and registering it again in the
same cells restores every cell entry, provided the id was in each of them. -/
theorem lookup_insert_after_erase (id : Int) (l : List CellCoord) (g : Grid)
    (hin : ∀ c ∈ l, id ∈ idsAt g c) (d : CellCoord) :
    (l.foldl (insertId id) (l.foldl (eraseId id) g)).lookup d = g.lookup d := by
  rw [lookup_foldl_insertId]
  split_ifs with hd
  · obtain ⟨ids, hids, hmem⟩ := (mem_idsAt_iff g d id).1 (hin d hd)
    have hids' : idsAt (l.foldl (eraseId id) g) d = ids.erase id := by
      unfold idsAt
      rw [lookup_foldl_eraseId, if_pos hd, hids]
      by_cases he : ids.erase id = ∅
      · simp [he]
      · simp [he]
    rw [hids', hids, Finset.insert_erase hmem]
  · rw [lookup_foldl_eraseId, if_neg hd]

/-- Grid after `removeObject` then `addObject` of a present id whose new
rectangle has the covered-cell range bounds of the stored one. -/
theorem grid_remove_add_same_range (s : SpatialGrid) (hm : Membership s) (id : Int)
    (info : ObjectInfo) (hl : s.objectData.lookup id = some info) (x y w h : Int)
    (hsx : floorDiv info.x s.cellSize = floorDiv x s.cellSize)
    (hsy : floorDiv info.y s.cellSize = floorDiv y s.cellSize)
    (hex : floorDiv (info.x + info.width - 1) s.cellSize = floorDiv (x + w - 1) s.cellSize)
    (hey : floorDiv (info.y + info.height - 1) s.cellSize =
      floorDiv (y + h - 1) s.cellSize) :
    (addObject (removeObject s id) id x y w h).grid = s.grid := by
  unfold removeObject
  rw [hl]
  show (cellLoop (floorDiv x s.cellSize) (floorDiv y s.cellSize)
      (floorDiv (x + w - 1) s.cellSize) (floorDiv (y + h - 1) s.cellSize)).foldl (insertId id)
    ((cellLoop (floorDiv info.x s.cellSize) (floorDiv info.y s.cellSize)
      (floorDiv (info.x + info.width - 1) s.cellSize)
      (floorDiv (info.y + info.height - 1) s.cellSize)).foldl (eraseId id) s.grid) = s.grid
  rw [hsx, hsy, hex, hey]
  apply Finmap.ext_lookup
  intro d
  apply lookup_insert_after_erase
  intro c hc
  rw [mem_cellLoop, ← hsx, ← hsy, ← hex, ← hey] at hc
  exact (hm id c).2 ⟨info, hl, hc⟩

/-- Object Table after `removeObject` then `addObject` of the same id. -/
theorem objectData_remove_add (s : SpatialGrid) (id x y w h : Int) :
    (addObject (removeObject s id) id x y w h).objectData =
      s.objectData.insert id ⟨x, y, w, h⟩ := by
  rw [addObject_objectData]
  apply Finmap.ext_lookup
  intro id'
  rw [lookup_objectData_insert, lookup_objectData_insert]
  split_ifs with hid
  · rfl
  · unfold removeObject
    cases hl : s.objectData.lookup id with
    | none => rfl
    | some info =>
      show (s.objectData.erase id).lookup id' = s.objectData.lookup id'
      rw [lookup_objectData_erase, if_neg hid]

/-- C18 (the same-footprint shortcut of `updateObject` preserves behaviour). In
a state with the membership and no-empty-cells invariants, for every id
(present or absent) and every rectangle `R`, `updateObject(id, R)` produces the
grid and the Object Table that `removeObject(id)` followed by
`addObject(id, R)` produces. -/
theorem C18_update_equals_remove_add (s : SpatialGrid) (hm : Membership s)
    (_hn : NoEmptyCells s) (id x y w h : Int) :
    (updateObject s id x y w h).grid = (addObject (removeObject s id) id x y w h).grid ∧
      (updateObject s id x y w h).objectData =
        (addObject (removeObject s id) id x y w h).objectData := by
  rw [objectData_remove_add]
  cases hl : s.objectData.lookup id with
  | none =>
    have hu : updateObject s id x y w h = addObject s id x y w h := by
      unfold updateObject
      rw [hl]
    have hr : removeObject s id = s := by
      unfold removeObject
      rw [hl]
    rw [hu, hr]
    exact ⟨rfl, rfl⟩
  | some info =>
    by_cases hsame : info.x = x ∧ info.y = y ∧ info.width = w ∧ info.height = h
    · -- the rectangle on file is passed again
      have hu : updateObject s id x y w h = s := by
        unfold updateObject
        rw [hl]
        simp only
        rw [if_pos hsame]
      obtain ⟨e1, e2, e3, e4⟩ := hsame
      rw [hu]
      constructor
      · exact (grid_remove_add_same_range s hm id info hl x y w h
          (by rw [e1]) (by rw [e2]) (by rw [e1, e3]) (by rw [e2, e4])).symm
      · apply Finmap.ext_lookup
        intro id'
        rw [lookup_objectData_insert]
        split_ifs with hid
        · rw [hid, hl]
          cases info
          simp only at e1 e2 e3 e4
          subst e1 e2 e3 e4
          rfl
        · rfl
    · by_cases hmoved : floorDiv info.x s.cellSize ≠ floorDiv x s.cellSize ∨
          floorDiv info.y s.cellSize ≠ floorDiv y s.cellSize ∨
          floorDiv (info.x + info.width - 1) s.cellSize ≠ floorDiv (x + w - 1) s.cellSize ∨
          floorDiv (info.y + info.height - 1) s.cellSize ≠ floorDiv (y + h - 1) s.cellSize
      · -- the footprint changed: `updateObject` itself unregisters and registers
        have hu : updateObject s id x y w h =
            { addToCells (removeFromCells s id info.x info.y info.width info.height)
                id x y w h with
              objectData := s.objectData.insert id ⟨x, y, w, h⟩ } := by
          unfold updateObject
          rw [hl]
          simp only
          rw [if_neg hsame, if_pos hmoved]
          rfl
        rw [hu]
        refine ⟨?_, rfl⟩
        unfold removeObject
        rw [hl]
        rfl
      · -- same footprint: the grid is left alone
        have hu : updateObject s id x y w h =
            { s with objectData := s.objectData.insert id ⟨x, y, w, h⟩ } := by
          unfold updateObject
          rw [hl]
          simp only
          rw [if_neg hsame, if_neg hmoved]
        rw [hu]
        refine ⟨?_, rfl⟩
        push_neg at hmoved
        obtain ⟨e1, e2, e3, e4⟩ := hmoved
        exact (grid_remove_add_same_range s hm id info hl x y w h e1 e2 e3 e4).symm

/-- Witness of C18: object 1 = `(50, 50, 10, 10)` on cell size 100 moves to
`(60, 60, 10, 10)` inside cell (0, 0). -/
theorem C18_update_equals_remove_add_witness :
    Membership (addObject (new 100) 1 50 50 10 10) ∧
      NoEmptyCells (addObject (new 100) 1 50 50 10 10) ∧
      ((updateObject (addObject (new 100) 1 50 50 10 10) 1 60 60 10 10).grid =
          (addObject (removeObject (addObject (new 100) 1 50 50 10 10) 1) 1 60 60 10 10).grid ∧
        (updateObject (addObject (new 100) 1 50 50 10 10) 1 60 60 10 10).objectData =
          (addObject (removeObject (addObject (new 100) 1 50 50 10 10) 1)
            1 60 60 10 10).objectData) :=
  ⟨(Membership.membership_new 100).membership_addObject 1 50 50 10 10 (by decide),
    (NoEmptyCells.noEmpty_new 100).noEmpty_addObject 1 50 50 10 10,
    C18_update_equals_remove_add (addObject (new 100) 1 50 50 10 10)
      ((Membership.membership_new 100).membership_addObject 1 50 50 10 10 (by decide))
      ((NoEmptyCells.noEmpty_new 100).noEmpty_addObject 1 50 50 10 10) 1 60 60 10 10⟩

end SpatialGrid

namespace SpatialGrid

/-! ## Claims C19 - C20: BOUNDS mode -/

/-- C19, refuted as stated: the claim does not require a positive cell size. On
an index constructed with cell size -100 the object 1 = `(0, 0, 200, 10)` is
registered in no cell (its column range `0 .. 199 / -100 = -1` is empty); the
membership invariant holds, the point `(0, 0)` of the object is at distance 0
from the query center `(0, 0)`, and `getObjectsInRadius(0, 0, 0, BOUNDS)` does
not return the id. -/
theorem C19_negative_cell_size_missed :
    Membership (addObject (new (-100)) 1 0 0 200 10) ∧
      (addObject (new (-100)) 1 0 0 200 10).objectData.lookup 1 = some ⟨0, 0, 200, 10⟩ ∧
      (1 : Int) ≤ 200 ∧ (1 : Int) ≤ 10 ∧ (0 : Int) ≤ 0 ∧
      (∃ px py : Int, (0 : Int) ≤ px ∧ px ≤ 0 + 200 - 1 ∧ (0 : Int) ≤ py ∧ py ≤ 0 + 10 - 1 ∧
        (px - 0) ^ 2 + (py - 0) ^ 2 ≤ (0 : Int) ^ 2) ∧
      1 ∉ (getObjectsInRadius (addObject (new (-100)) 1 0 0 200 10) 0 0 0
        .PRECISION_BOUNDS).1 :=
  ⟨(Membership.membership_new (-100)).membership_addObject 1 0 0 200 10 (by decide),
    by decide, by decide, by decide, by decide,
    ⟨0, 0, by decide, by decide, by decide, by decide, by decide⟩, by decide⟩

/-- C19, amended (BOUNDS mode misses no object). In a state with the membership
invariant and a positive cell size, for a tracked object with rectangle
`(x, y, w, h)`, `w ≥ 1`, `h ≥ 1`, every center and every radius `r ≥ 0`: if some
integer point `(px, py)` with `x ≤ px ≤ x+w-1` and `y ≤ py ≤ y+h-1` satisfies
`(px-cx)^2 + (py-cy)^2 ≤ r^2`, the id of the object is in the result of
`getObjectsInRadius(cx, cy, r, BOUNDS)`. -/
theorem C19_bounds_mode_complete (s : SpatialGrid) (hc : 0 < s.cellSize) (hm : Membership s)
    (id : Int) (o : ObjectInfo) (ho : s.objectData.lookup id = some o)
    (_hw : 1 ≤ o.width) (_hh : 1 ≤ o.height) (cx cy r : Int) (hr : 0 ≤ r)
    (hpoint : ∃ px py : Int, o.x ≤ px ∧ px ≤ o.x + o.width - 1 ∧
      o.y ≤ py ∧ py ≤ o.y + o.height - 1 ∧ (px - cx) ^ 2 + (py - cy) ^ 2 ≤ r ^ 2) :
    id ∈ (getObjectsInRadius s cx cy r .PRECISION_BOUNDS).1 := by
  obtain ⟨px, py, h1, h2, h3, h4, hd⟩ := hpoint
  simp only [pow_two] at hd
  obtain ⟨hx1, hx2⟩ := abs_le_of_sq_sum_le _ _ r hr hd
  have hd' : (py - cy) * (py - cy) + (px - cx) * (px - cx) ≤ r * r := by
    rw [add_comm]
    exact hd
  obtain ⟨hy1, hy2⟩ := abs_le_of_sq_sum_le _ _ r hr hd'
  rw [mem_getObjectsInRadius_bounds]
  refine ⟨⟨floorDiv px s.cellSize, floorDiv py s.cellSize⟩, ?_, ?_, o, ho, ?_⟩
  · exact ⟨floorDiv_mono _ hc (by omega), floorDiv_mono _ hc (by omega),
      floorDiv_mono _ hc (by omega), floorDiv_mono _ hc (by omega)⟩
  · exact (hm id _).2 ⟨o, ho, inCoveredRange_of_point _ hc _ _ _ _ px py h1 h2 h3 h4⟩
  · exact rectangleIntersectsCircle_of_point _ _ _ _ cx cy r px py h1 (by omega) h3
      (by omega) hd

/-- Witness of C19: object 1 = `(0, 0, 10, 10)` on cell size 100, center
`(-3, 4)`, radius 5; the point `(0, 0)` of the object is at distance 5. -/
theorem C19_bounds_mode_complete_witness :
    (0 : Int) < (addObject (new 100) 1 0 0 10 10).cellSize ∧
      Membership (addObject (new 100) 1 0 0 10 10) ∧
      (addObject (new 100) 1 0 0 10 10).objectData.lookup 1 = some ⟨0, 0, 10, 10⟩ ∧
      1 ∈ (getObjectsInRadius (addObject (new 100) 1 0 0 10 10) (-3) 4 5
        .PRECISION_BOUNDS).1 :=
  ⟨by decide, (Membership.membership_new 100).membership_addObject 1 0 0 10 10 (by decide),
    by decide,
    C19_bounds_mode_complete (addObject (new 100) 1 0 0 10 10) (by decide)
      ((Membership.membership_new 100).membership_addObject 1 0 0 10 10 (by decide))
      1 ⟨0, 0, 10, 10⟩ (by decide) (by decide) (by decide) (-3) 4 5 (by decide)
      ⟨0, 0, by decide, by decide, by decide, by decide, by decide⟩⟩

/-- Truncating halving of a non-negative dimension stays inside `[0, w]`. -/
theorem tdiv_two_le_self (w : Int) (hw : 0 ≤ w) : 0 ≤ w.tdiv 2 ∧ w.tdiv 2 ≤ w := by
  rw [Int.tdiv_eq_ediv hw (by decide)]
  omega

/-- For a rectangle of non-negative width and height the center test implies
the rectangle-versus-circle test. -/
theorem rectangleIntersectsCircle_of_center (o : ObjectInfo) (hw : 0 ≤ o.width)
    (hh : 0 ≤ o.height) (cx cy r : Int) (ht : centerInCircle o cx cy r = true) :
    rectangleIntersectsCircle o.x o.y o.width o.height cx cy r = true := by
  obtain ⟨hw1, hw2⟩ := tdiv_two_le_self o.width hw
  obtain ⟨hh1, hh2⟩ := tdiv_two_le_self o.height hh
  have hd : (o.x + o.width.tdiv 2 - cx) * (o.x + o.width.tdiv 2 - cx) +
      (o.y + o.height.tdiv 2 - cy) * (o.y + o.height.tdiv 2 - cy) ≤ r * r := by
    unfold centerInCircle at ht
    exact of_decide_eq_true ht
  exact rectangleIntersectsCircle_of_point _ _ _ _ cx cy r (o.x + o.width.tdiv 2)
    (o.y + o.height.tdiv 2) (by omega) (by omega) (by omega) (by omega) hd

/-- C20 (CENTER refines BOUNDS, not the reverse). In a state in which every
tracked object has width and height at least 0, for every center and radius the
result of `getObjectsInRadius` with `CENTER` is a subset of the result with
`BOUNDS`; the reverse inclusion fails for the object `(0, 0, 10, 10)` on cell
size 100 with center `(0, 0)` and radius 5. -/
theorem C20_center_subset_bounds (s : SpatialGrid)
    (hnn : ∀ (id : Int) (o : ObjectInfo), s.objectData.lookup id = some o →
      0 ≤ o.width ∧ 0 ≤ o.height)
    (cx cy r : Int) :
    (getObjectsInRadius s cx cy r .PRECISION_CENTER).1 ⊆
        (getObjectsInRadius s cx cy r .PRECISION_BOUNDS).1 ∧
      ¬ ((getObjectsInRadius (addObject (new 100) 1 0 0 10 10) 0 0 5 .PRECISION_BOUNDS).1 ⊆
        (getObjectsInRadius (addObject (new 100) 1 0 0 10 10) 0 0 5 .PRECISION_CENTER).1) := by
  refine ⟨?_, by decide⟩
  intro id hid
  rw [mem_getObjectsInRadius_center] at hid
  rw [mem_getObjectsInRadius_bounds]
  obtain ⟨c, hc, hmem, o, ho, ht⟩ := hid
  obtain ⟨hw, hh⟩ := hnn id o ho
  exact ⟨c, hc, hmem, o, ho, rectangleIntersectsCircle_of_center o hw hh cx cy r ht⟩

/-- Witness of C20: objects 1 = `(0, 0, 10, 10)` and 2 = `(20, 0, 0, 0)` on cell
size 100, center `(0, 0)`, radius 8. -/
theorem C20_center_subset_bounds_witness :
    (∀ (id : Int) (o : ObjectInfo),
        (addObject (addObject (new 100) 1 0 0 10 10) 2 20 0 0 0).objectData.lookup id = some o →
        0 ≤ o.width ∧ 0 ≤ o.height) ∧
      (getObjectsInRadius (addObject (addObject (new 100) 1 0 0 10 10) 2 20 0 0 0)
          0 0 8 .PRECISION_CENTER).1 ⊆
        (getObjectsInRadius (addObject (addObject (new 100) 1 0 0 10 10) 2 20 0 0 0)
          0 0 8 .PRECISION_BOUNDS).1 :=
  have hnn : ∀ (id : Int) (o : ObjectInfo),
      (addObject (addObject (new 100) 1 0 0 10 10) 2 20 0 0 0).objectData.lookup id = some o →
      0 ≤ o.width ∧ 0 ≤ o.height := by
    intro id o ho
    rw [addObject_objectData, addObject_objectData, lookup_objectData_insert,
      lookup_objectData_insert] at ho
    split_ifs at ho with h2 h1
    · cases Option.some.inj ho
      decide
    · cases Option.some.inj ho
      decide
    · exact Option.noConfusion ((Finmap.lookup_empty id).symm.trans ho)
  ⟨hnn, (C20_center_subset_bounds _ hnn 0 0 8).1⟩

end SpatialGrid
